import Mathlib

/-!
Shallow embedding of icctool.py (an ICC profile parser/editor/writer) and
verification of the frozen claims about it.

Conventions of the embedding:

* A Python `bytes` object is a `List Nat` (each entry a byte value).
* Python functions that can raise are `Except PyErr _`; the `PyErr`
  constructors name the Python exception class that would be raised.
* `struct.unpack` on a slice of the wrong length raises `struct.error`;
  Python slices themselves silently truncate (`blob[i:j]` clamps to the
  available bytes), which `pyslice` reproduces.
* `bytes.decode("ascii")` fails on any byte >= 0x80; decoded strings are
  kept as their code-point sequences (`List Nat`).
-/

/-- Byte strings (and decoded ascii strings) as lists of natural numbers. -/
abbrev Bytes := List Nat

/-- The Python exceptions that the code in icctool.py can raise. -/
inductive PyErr where
  | structError
  | unicodeDecodeError
  | unicodeEncodeError
  | assertionError
  | keyError
  | attributeError
  | nameError
  | valueError
deriving DecidableEq

/-- Python slicing `blob[i:j]` (for `0 ≤ i ≤ j`): clamps silently. -/
def pyslice (blob : Bytes) (i j : Nat) : Bytes :=
  (blob.drop i).take (j - i)

/-- Python slicing `blob[i:]`. -/
def pysliceFrom (blob : Bytes) (i : Nat) : Bytes :=
  blob.drop i

/-- `struct.unpack(">I", bs)`: exactly 4 bytes, big endian. -/
def unpackU32 : Bytes → Except PyErr Nat
  | [b0, b1, b2, b3] => .ok (((b0 * 256 + b1) * 256 + b2) * 256 + b3)
  | _ => .error .structError

/-- `struct.unpack(">H", bs)`: exactly 2 bytes, big endian. -/
def unpackU16 : Bytes → Except PyErr Nat
  | [b0, b1] => .ok (b0 * 256 + b1)
  | _ => .error .structError

/-- `struct.unpack(">h", bs)`: exactly 2 bytes, big endian, two's complement. -/
def unpackS16 : Bytes → Except PyErr Int
  | [b0, b1] =>
      let u := b0 * 256 + b1
      .ok (if u < 32768 then (u : Int) else (u : Int) - 65536)
  | _ => .error .structError

/-- `struct.unpack(">B", bs)`: exactly 1 byte. -/
def unpackU8 : Bytes → Except PyErr Nat
  | [b0] => .ok b0
  | _ => .error .structError

/-- `struct.pack` of an `I` field: requires `0 ≤ v < 2^32`. -/
def packU32 (v : Nat) : Except PyErr Bytes :=
  if v < 4294967296 then
    .ok [v / 16777216, v / 65536 % 256, v / 256 % 256, v % 256]
  else .error .structError

/-- `struct.pack` of an `I` field fed a Python `int` that may be negative. -/
def packU32I (v : Int) : Except PyErr Bytes :=
  if 0 ≤ v then packU32 v.toNat else .error .structError

/-- `struct.pack` of an `H` field: requires `0 ≤ v < 2^16`. -/
def packU16 (v : Nat) : Except PyErr Bytes :=
  if v < 65536 then .ok [v / 256, v % 256] else .error .structError

/-- `struct.pack` of a `B` field: requires `0 ≤ v < 2^8`. -/
def packB (v : Nat) : Except PyErr Bytes :=
  if v < 256 then .ok [v] else .error .structError

/-- `struct.pack` of an `h` field: requires `-2^15 ≤ v ≤ 2^15 - 1`;
two's complement big endian. -/
def packS16 (v : Int) : Except PyErr Bytes :=
  if -32768 ≤ v ∧ v < 32768 then
    .ok [(v % 65536).toNat / 256, (v % 65536).toNat % 256]
  else .error .structError

/-- `bs.decode("ascii")`: fails on any byte ≥ 0x80. The decoded string is
kept as its code points. Short inputs are fine (no length check). -/
def decodeAscii (bs : Bytes) : Except PyErr Bytes :=
  if bs.all (· < 128) then .ok bs else .error .unicodeDecodeError

/-- `s.encode("ascii")`: fails on any code point ≥ 0x80. -/
def encodeAscii (s : Bytes) : Except PyErr Bytes :=
  if s.all (· < 128) then .ok s else .error .unicodeEncodeError

/-- `struct.pack` of an `Ns` field: pads with NULs / truncates to `n` bytes. -/
def structS (n : Nat) (bs : Bytes) : Bytes :=
  bs.take n ++ List.replicate (n - bs.length) 0

/-- Python `assert cond`: raises `AssertionError` when the condition fails. -/
def pyassert (b : Bool) : Except PyErr Unit :=
  if b then .ok () else .error .assertionError

/-- Whether an `Except` value is a success. -/
def exceptIsOk : Except PyErr α → Bool
  | .ok _ => true
  | .error _ => false

/-! ## Fixed-point number codec (§ ICCTag fixed-point methods) -/

/-- A signed 16.16 fixed-point component as parsed: (16-bit signed whole,
16-bit unsigned fraction). -/
abbrev S15 := Int × Nat

/-- `ICCTag.parse_s15Fixed16Number`. -/
def parse_s15Fixed16Number (blob : Bytes) : Except PyErr S15 := do
  let s15Fixed ← unpackS16 (pyslice blob 0 2)
  let u16Frac ← unpackU16 (pyslice blob 2 4)
  .ok (s15Fixed, u16Frac)

/-- `ICCTag.parse_u16Fixed16Number`. -/
def parse_u16Fixed16Number (blob : Bytes) : Except PyErr (Nat × Nat) := do
  let u16Fixed ← unpackU16 (pyslice blob 0 2)
  let u16Frac ← unpackU16 (pyslice blob 2 4)
  .ok (u16Fixed, u16Frac)

/-- `ICCTag.pack_s15Fixed16Number`: `struct.pack("!hH", s15Fixed, u16Frac)`. -/
def pack_s15Fixed16Number (n : S15) : Except PyErr Bytes := do
  let hi ← packS16 n.1
  let lo ← packU16 n.2
  .ok (hi ++ lo)

/-- `ICCTag.pack_u16Fixed16Number` (the classmethod at the end of the class
body, which overrides the earlier stray instance method of the same name):
its body is `struct.pack("!HH", s15Fixed, u16Frac)` where `s15Fixed` is an
unbound name, so every call raises `NameError`. -/
def pack_u16Fixed16Number (_n : Nat × Nat) : Except PyErr Bytes :=
  .error .nameError

/-- `ICCTag.parse_XYZNumber`: three s15Fixed16 numbers. -/
def parse_XYZNumber (blob : Bytes) : Except PyErr (S15 × S15 × S15) := do
  let cie_x ← parse_s15Fixed16Number (pyslice blob 0 4)
  let cie_y ← parse_s15Fixed16Number (pyslice blob 4 8)
  let cie_z ← parse_s15Fixed16Number (pyslice blob 8 12)
  .ok (cie_x, cie_y, cie_z)

/-- `ICCTag.pack_XYZNumber`: three `struct.pack("!hH", ...)` calls. -/
def pack_XYZNumber (xyz : S15 × S15 × S15) : Except PyErr Bytes := do
  let bx ← pack_s15Fixed16Number xyz.1
  let by' ← pack_s15Fixed16Number xyz.2.1
  let bz ← pack_s15Fixed16Number xyz.2.2
  .ok (bx ++ by' ++ bz)

/-! ## Header codec (`ICCHeader`) -/

/-- `ICCHeader.parse_VersionNumber`: split the packed u32 into
(major, minor, bug_fix, rem). -/
def parse_VersionNumber (blob : Bytes) : Except PyErr (Nat × Nat × Nat × Nat) := do
  let v ← unpackU32 blob
  .ok ((v >>> 24) &&& 0xFF, (v >>> 20) &&& 0x0F, (v >>> 16) &&& 0x0F, v &&& 0xFFFF)

/-- `version_str.split(".")` on a string kept as code points: split on the
code point of `"."` (46). Like Python's `str.split`, it returns one piece
more than the number of separators (empty pieces included). -/
def splitOnDot : Bytes → List Bytes
  | [] => [[]]
  | c :: rest =>
      match splitOnDot rest, c == 46 with
      | r, true => [] :: r
      | [], false => [[c]]
      | h :: t, false => (c :: h) :: t

/-- Accumulator loop of `pyint`. -/
def pyintAux : Bytes → Nat → Option Nat
  | [], acc => some acc
  | c :: rest, acc =>
      if 48 ≤ c ∧ c ≤ 57 then pyintAux rest (acc * 10 + (c - 48)) else none

/-- Python `int(s)` on a decimal-digit string kept as code points: `none`
models the `ValueError` of a non-digit or empty string. (Python's `int()`
also accepts a sign and surrounding whitespace; no version string used in
the repository has either.) -/
def pyint : Bytes → Option Nat
  | [] => none
  | s => pyintAux s 0

/-- `ICCHeader.set_VersionNumber`: `major, minor, bug_fix = [int(v) for v in
version_str.split(".")]`, `rem = 0`. A wrong number of components or a
non-numeric component raises `ValueError`. -/
def set_VersionNumber (version_str : Bytes) : Except PyErr (Nat × Nat × Nat × Nat) :=
  match (splitOnDot version_str).mapM pyint with
  | some [major, minor, bug_fix] => .ok (major, minor, bug_fix, 0)
  | _ => .error .valueError

/-- `ICCHeader.dopack_VersionNumber`: `struct.pack("!BBH", major,
(minor << 4) | bug_fix, rem)`. -/
def dopack_VersionNumber (major minor bug_fix rem : Nat) : Except PyErr Bytes := do
  let b0 ← packB major
  let b1 ← packB ((minor <<< 4) ||| bug_fix)
  let b2 ← packU16 rem
  .ok (b0 ++ b1 ++ b2)

/-- `ICCHeader.parse_dateTimeNumber`: six big-endian u16 fields. -/
def parse_dateTimeNumber (blob : Bytes) :
    Except PyErr (Nat × Nat × Nat × Nat × Nat × Nat) := do
  let year ← unpackU16 (pyslice blob 0 2)
  let month ← unpackU16 (pyslice blob 2 4)
  let day ← unpackU16 (pyslice blob 4 6)
  let hour ← unpackU16 (pyslice blob 6 8)
  let minute ← unpackU16 (pyslice blob 8 10)
  let sec ← unpackU16 (pyslice blob 10 12)
  .ok (year, month, day, hour, minute, sec)

/-- `ICCHeader.pack_dateTimeNumber`: `struct.pack("!HHHHHH", ...)`. -/
def pack_dateTimeNumber (dt : Nat × Nat × Nat × Nat × Nat × Nat) :
    Except PyErr Bytes := do
  let b0 ← packU16 dt.1
  let b1 ← packU16 dt.2.1
  let b2 ← packU16 dt.2.2.1
  let b3 ← packU16 dt.2.2.2.1
  let b4 ← packU16 dt.2.2.2.2.1
  let b5 ← packU16 dt.2.2.2.2.2
  .ok (b0 ++ b1 ++ b2 ++ b3 ++ b4 ++ b5)

/-- The in-memory ICC header model, one field per attribute that
`ICCHeader.parse` sets. Decoded ascii strings are kept as code points,
raw byte fields as byte lists. -/
structure ICCHeader where
  profile_size : Nat
  preferred_cmm_type : Nat
  profile_version_number : Nat × Nat × Nat × Nat
  profile_device_class : Bytes
  color_space : Bytes
  profile_connection_space : Bytes
  date_and_time : Nat × Nat × Nat × Nat × Nat × Nat
  profile_file_signature : Bytes
  primary_platform_signature : Bytes
  profile_flags : Nat
  device_manufacturer : Nat
  device_model : Nat
  device_attributes : Bytes
  rendering_intent : Nat
  xyz_illuminant : S15 × S15 × S15
  profile_creator_field : Nat
  profile_id : Bytes
  reserved : Bytes
deriving DecidableEq

/-- The ascii code points of `"acsp"`. -/
def acspSig : Bytes := [97, 99, 115, 112]

/-- The `if force_version_number is not None:
header.set_VersionNumber(force_version_number)` step of `ICCHeader.parse`. -/
def applyVersionOverride (fvn : Option Bytes) (pvn0 : Nat × Nat × Nat × Nat) :
    Except PyErr (Nat × Nat × Nat × Nat) :=
  match fvn with
  | some version_str => set_VersionNumber version_str
  | none => .ok pvn0

/-- `ICCHeader.parse(blob, force_version_number)`. Reads the fixed-offset
fields; `assert "acsp" == profile_file_signature`; returns the header and
the running index `i` (always 128 on success). Note that the three trailing
fields read at offsets 56, 84 and 100 are plain slices with no length
check, so nothing past byte 84 is required to be present. -/
def ICCHeader.parse (blob : Bytes) (force_version_number : Option Bytes) :
    Except PyErr (ICCHeader × Nat) := do
  let profile_size ← unpackU32 (pyslice blob 0 4)
  let preferred_cmm_type ← unpackU32 (pyslice blob 4 8)
  let pvn0 ← parse_VersionNumber (pyslice blob 8 12)
  let profile_version_number ← applyVersionOverride force_version_number pvn0
  let profile_device_class ← decodeAscii (pyslice blob 12 16)
  let color_space ← decodeAscii (pyslice blob 16 20)
  let profile_connection_space ← decodeAscii (pyslice blob 20 24)
  let date_and_time ← parse_dateTimeNumber (pyslice blob 24 36)
  let profile_file_signature ← decodeAscii (pyslice blob 36 40)
  let _ ← pyassert (profile_file_signature == acspSig)
  let primary_platform_signature ← decodeAscii (pyslice blob 40 44)
  let profile_flags ← unpackU32 (pyslice blob 44 48)
  let device_manufacturer ← unpackU32 (pyslice blob 48 52)
  let device_model ← unpackU32 (pyslice blob 52 56)
  let rendering_intent ← unpackU32 (pyslice blob 64 68)
  let xyz_illuminant ← parse_XYZNumber (pyslice blob 68 80)
  let profile_creator_field ← unpackU32 (pyslice blob 80 84)
  .ok (⟨profile_size, preferred_cmm_type, profile_version_number,
        profile_device_class, color_space, profile_connection_space,
        date_and_time, profile_file_signature, primary_platform_signature,
        profile_flags, device_manufacturer, device_model, pyslice blob 56 64,
        rendering_intent, xyz_illuminant, profile_creator_field,
        pyslice blob 84 100, pyslice blob 100 128⟩, 128)

/-- `ICCHeader.pack`. The struct format string concatenates `I` fields,
exact-length `s` fields for the string/bytes attributes, and — between
`rendering_intent` and `profile_creator_field` — a bare `"s"` for the
illuminant: a count-less `s` in Python's struct means one byte, so only
the FIRST byte of the 12-byte `pack_XYZNumber` output is kept. -/
def ICCHeader.pack (h : ICCHeader) : Except PyErr Bytes := do
  let version_number_bytes ← dopack_VersionNumber h.profile_version_number.1
    h.profile_version_number.2.1 h.profile_version_number.2.2.1
    h.profile_version_number.2.2.2
  let date_and_time_bytes ← pack_dateTimeNumber h.date_and_time
  let ps ← packU32 h.profile_size
  let cmm ← packU32 h.preferred_cmm_type
  let dc ← encodeAscii h.profile_device_class
  let cs ← encodeAscii h.color_space
  let pcs ← encodeAscii h.profile_connection_space
  let fs ← encodeAscii h.profile_file_signature
  let pps ← encodeAscii h.primary_platform_signature
  let flags ← packU32 h.profile_flags
  let manu ← packU32 h.device_manufacturer
  let model ← packU32 h.device_model
  let rend ← packU32 h.rendering_intent
  let xyzb ← pack_XYZNumber h.xyz_illuminant
  let creator ← packU32 h.profile_creator_field
  .ok (ps ++ cmm ++ version_number_bytes ++ dc ++ cs ++ pcs ++
       date_and_time_bytes ++ fs ++ pps ++ flags ++ manu ++ model ++
       h.device_attributes ++ rend ++ structS 1 xyzb ++ creator ++
       h.profile_id ++ h.reserved)

/-! ## Tag element codec (`ICCTag`) -/

/-- The names in `TAG_ELEMENT_TABLE` (the implemented element kinds). -/
inductive ElemName where
  | textType
  | textDescriptionType
  | multiLocalizedUnicodeType
  | XYZType
  | s15Fixed16ArrayType
  | curveType
  | parametricCurveType
  | chromaticityType
deriving DecidableEq

/-- Ascii code points of the element signatures in `TAG_ELEMENT_TABLE`. -/
def sigTextType : Bytes := [116, 101, 120, 116]
def sigDescType : Bytes := [100, 101, 115, 99]
def sigMlucType : Bytes := [109, 108, 117, 99]
def sigXYZType : Bytes := [88, 89, 90, 32]
def sigSf32Type : Bytes := [115, 102, 51, 50]
def sigCurvType : Bytes := [99, 117, 114, 118]
def sigParaType : Bytes := [112, 97, 114, 97]
def sigChrmType : Bytes := [99, 104, 114, 109]

/-- `TAG_ELEMENT_TABLE`: (tag_name, element_signature) pairs. -/
def TAG_ELEMENT_TABLE : List (ElemName × Bytes) :=
  [(.textType, sigTextType),
   (.textDescriptionType, sigDescType),
   (.multiLocalizedUnicodeType, sigMlucType),
   (.XYZType, sigXYZType),
   (.s15Fixed16ArrayType, sigSf32Type),
   (.curveType, sigCurvType),
   (.parametricCurveType, sigParaType),
   (.chromaticityType, sigChrmType)]

/-- `read_tag_element_table` + `element_table.get(signature, None)`:
the dictionary lookup by element signature. -/
def elementTableGet (sig : Bytes) : Option ElemName :=
  (TAG_ELEMENT_TABLE.find? (fun e => e.2 == sig)).map Prod.fst

/-- UTF-16 big endian byte pairing: an odd number of bytes raises
`UnicodeDecodeError`. -/
def utf16Units : Bytes → Except PyErr (List Nat)
  | [] => .ok []
  | [_] => .error .unicodeDecodeError
  | b0 :: b1 :: rest => do
      let us ← utf16Units rest
      .ok ((b0 * 256 + b1) :: us)

/-- Combine UTF-16 code units into code points; unpaired surrogates raise
`UnicodeDecodeError` (Python's strict decoder). -/
def combineUtf16 : List Nat → Except PyErr (List Nat)
  | [] => .ok []
  | u :: rest =>
      if 0xD800 ≤ u ∧ u < 0xDC00 then
        match rest with
        | v :: rest' =>
            if 0xDC00 ≤ v ∧ v < 0xE000 then do
              let cs ← combineUtf16 rest'
              .ok ((0x10000 + (u - 0xD800) * 0x400 + (v - 0xDC00)) :: cs)
            else .error .unicodeDecodeError
        | [] => .error .unicodeDecodeError
      else if 0xDC00 ≤ u ∧ u < 0xE000 then .error .unicodeDecodeError
      else do
        let cs ← combineUtf16 rest
        .ok (u :: cs)

/-- `bs.decode("utf-16be")`, result kept as code points. -/
def decodeUtf16be (bs : Bytes) : Except PyErr (List Nat) :=
  utf16Units bs >>= combineUtf16

/-- `s.encode("utf-16be")`: lone surrogates (and non-code-points) raise
`UnicodeEncodeError`. -/
def encodeUtf16be : List Nat → Except PyErr Bytes
  | [] => .ok []
  | c :: rest => do
      let rb ← encodeUtf16be rest
      if c < 0x10000 then
        if 0xD800 ≤ c ∧ c < 0xE000 then .error .unicodeEncodeError
        else .ok ([c / 256, c % 256] ++ rb)
      else if c < 0x110000 then
        .ok ([(0xD800 + (c - 0x10000) / 0x400) / 256,
              (0xD800 + (c - 0x10000) / 0x400) % 256,
              (0xDC00 + (c - 0x10000) % 0x400) / 256,
              (0xDC00 + (c - 0x10000) % 0x400) % 256] ++ rb)
      else .error .unicodeEncodeError

/-- One record of a multiLocalizedUnicodeType `names` list: the tuple
`(name_record_size, language_code, country_code, length, offset, content)`
kept as a record. -/
structure MlucName where
  name_record_size : Nat
  language_code : Bytes
  country_code : Bytes
  length : Nat
  offset : Nat
  content : List Nat
deriving DecidableEq

/-- The per-kind payload of a parsed tag. Each constructor carries exactly
the attributes the corresponding `ICCTag.parse_*` element parser sets. -/
inductive ElemData where
  | unimplementedType (element_size : Nat) (element_signature : Bytes)
      (remaining : Bytes)
  | textType (element_size : Nat) (element_signature : Bytes)
      (reserved : Nat) (text : Bytes)
  | chromaticityType (element_size : Nat) (element_signature : Bytes)
      (reserved : Nat) (num_device_channels : Nat) (phosphor_colorant_type : Nat)
      (cie_xy_coordinates : List ((Nat × Nat) × (Nat × Nat)))
  | curveType (element_size : Nat) (element_signature : Bytes)
      (reserved : Nat) (curve_count : Nat) (curve_value : List Nat)
  | textDescriptionType (element_size : Nat) (element_signature : Bytes)
      (reserved : Nat) (ascii_length : Nat) (ascii_invariant_description : Bytes)
      (unicode_language_code : Nat) (unicode_length : Nat)
      (unicode_localizable_description : Bytes) (scriptcode_code : Nat)
      (macintosh_length : Nat) (macintosh_description : Bytes) (rem : Bytes)
  | XYZType (element_size : Nat) (element_signature : Bytes)
      (reserved : Nat) (numbers : List (S15 × S15 × S15))
  | multiLocalizedUnicodeType (element_size : Nat) (element_signature : Bytes)
      (reserved : Nat) (number_of_names : Nat) (names : List MlucName) (rem : Bytes)
  | s15Fixed16ArrayType (element_size : Nat) (element_signature : Bytes)
      (reserved : Nat) (numbers : List S15)
  | parametricCurveType (element_size : Nat) (element_signature : Bytes)
      (reserved : Nat) (encoded_value : Nat) (reserved2 : Nat)
      (parameters : List S15)
deriving DecidableEq

/-- The `element_signature` attribute, present on every parsed tag. -/
def ElemData.sigOf : ElemData → Bytes
  | .unimplementedType _ s _ => s
  | .textType _ s _ _ => s
  | .chromaticityType _ s _ _ _ _ => s
  | .curveType _ s _ _ _ => s
  | .textDescriptionType _ s _ _ _ _ _ _ _ _ _ _ => s
  | .XYZType _ s _ _ => s
  | .multiLocalizedUnicodeType _ s _ _ _ _ => s
  | .s15Fixed16ArrayType _ s _ _ => s
  | .parametricCurveType _ s _ _ _ _ => s

/-- `ICCTag.parse_UnimplementedType`: store the signature and the full
verbatim payload (`tag.remaining = blob[i:]` with `i = 0`). -/
def parse_UnimplementedType (blob : Bytes) : Except PyErr ElemData := do
  let element_signature ← decodeAscii (pyslice blob 0 4)
  .ok (.unimplementedType blob.length element_signature blob)

/-- `ICCTag.parse_textType`. -/
def parse_textType (blob : Bytes) : Except PyErr ElemData := do
  let element_signature ← decodeAscii (pyslice blob 0 4)
  let reserved ← unpackU32 (pyslice blob 4 8)
  let text ← decodeAscii (pysliceFrom blob 8)
  .ok (.textType blob.length element_signature reserved text)

/-- The per-channel loop of `parse_chromaticityType`: two u16Fixed16
numbers per channel, 8 bytes each, starting at index `i`. -/
def parseChromaticityLoop (blob : Bytes) :
    Nat → Nat → Except PyErr (List ((Nat × Nat) × (Nat × Nat)))
  | 0, _ => .ok []
  | n + 1, i => do
      let x ← parse_u16Fixed16Number (pyslice blob i (i + 4))
      let y ← parse_u16Fixed16Number (pyslice blob (i + 4) (i + 8))
      let rest ← parseChromaticityLoop blob n (i + 8)
      .ok ((x, y) :: rest)

/-- `ICCTag.parse_chromaticityType`. -/
def parse_chromaticityType (blob : Bytes) : Except PyErr ElemData := do
  let element_signature ← decodeAscii (pyslice blob 0 4)
  let reserved ← unpackU32 (pyslice blob 4 8)
  let num_device_channels ← unpackU16 (pyslice blob 8 10)
  let phosphor_colorant_type ← unpackU16 (pyslice blob 10 12)
  let cie_xy_coordinates ← parseChromaticityLoop blob num_device_channels 12
  .ok (.chromaticityType blob.length element_signature reserved
        num_device_channels phosphor_colorant_type cie_xy_coordinates)

/-- The sample loop of `parse_curveType`: `curve_count` big-endian u16s. -/
def parseCurveLoop (blob : Bytes) : Nat → Nat → Except PyErr (List Nat)
  | 0, _ => .ok []
  | n + 1, i => do
      let v ← unpackU16 (pyslice blob i (i + 2))
      let rest ← parseCurveLoop blob n (i + 2)
      .ok (v :: rest)

/-- `ICCTag.parse_curveType`. -/
def parse_curveType (blob : Bytes) : Except PyErr ElemData := do
  let element_signature ← decodeAscii (pyslice blob 0 4)
  let reserved ← unpackU32 (pyslice blob 4 8)
  let curve_count ← unpackU32 (pyslice blob 8 12)
  let curve_value ← parseCurveLoop blob curve_count 12
  .ok (.curveType blob.length element_signature reserved curve_count curve_value)

/-- `str.strip("\x00")`: remove NUL code points from both ends. -/
def stripNulls (s : Bytes) : Bytes :=
  ((s.dropWhile (· == 0)).reverse.dropWhile (· == 0)).reverse

/-- `struct.unpack(f">NrememberedLens", bs)` for an exact-length `s` read:
requires exactly `n` bytes. -/
def unpackExact (n : Nat) (bs : Bytes) : Except PyErr Bytes :=
  if bs.length = n then .ok bs else .error .structError

/-- `ICCTag.parse_textDescriptionType`. -/
def parse_textDescriptionType (blob : Bytes) : Except PyErr ElemData := do
  let element_signature ← decodeAscii (pyslice blob 0 4)
  let reserved ← unpackU32 (pyslice blob 4 8)
  let ascii_length ← unpackU32 (pyslice blob 8 12)
  let asciiRaw ← unpackExact ascii_length (pyslice blob 12 (12 + ascii_length))
  let asciiDecoded ← decodeAscii asciiRaw
  let ascii_invariant_description := stripNulls asciiDecoded
  let i := 12 + ascii_length
  let unicode_language_code ← unpackU32 (pyslice blob i (i + 4))
  let unicode_length ← unpackU32 (pyslice blob (i + 4) (i + 8))
  let unicode_localizable_description := pyslice blob (i + 8) (i + 8 + unicode_length)
  let j := i + 8 + unicode_length
  let scriptcode_code ← unpackU16 (pyslice blob j (j + 2))
  let macintosh_length ← unpackU8 (pyslice blob (j + 2) (j + 3))
  let macintosh_description := pyslice blob (j + 3) (j + 3 + 67)
  let rem := pysliceFrom blob (j + 3 + 67)
  .ok (.textDescriptionType blob.length element_signature reserved ascii_length
        ascii_invariant_description unicode_language_code unicode_length
        unicode_localizable_description scriptcode_code macintosh_length
        macintosh_description rem)

/-- The `while i < len(blob)` loop of `parse_XYZType`: each iteration parses
an XYZNumber from `blob[i:]` and advances by 12. -/
def parseXYZLoop (blob : Bytes) (i : Nat) :
    Except PyErr (List (S15 × S15 × S15)) :=
  if _h : i < blob.length then do
    let n ← parse_XYZNumber (pysliceFrom blob i)
    let rest ← parseXYZLoop blob (i + 12)
    .ok (n :: rest)
  else .ok []
termination_by blob.length - i

/-- `ICCTag.parse_XYZType` (note its own `assert` on the signature). -/
def parse_XYZType (blob : Bytes) : Except PyErr ElemData := do
  let element_signature ← decodeAscii (pyslice blob 0 4)
  let _ ← pyassert (element_signature == sigXYZType)
  let reserved ← unpackU32 (pyslice blob 4 8)
  let numbers ← parseXYZLoop blob 8
  .ok (.XYZType blob.length element_signature reserved numbers)

/-- The name-record loop of `parse_multiLocalizedUnicodeType`. The running
index advances by the 16 record-header bytes plus `length`, while the
content itself is read from the absolute `offset` within the element blob. -/
def parseMlucLoop (blob : Bytes) :
    Nat → Nat → Except PyErr (List MlucName × Nat)
  | 0, i => .ok ([], i)
  | n + 1, i => do
      let name_record_size ← unpackU32 (pyslice blob i (i + 4))
      let language_code ← decodeAscii (pyslice blob (i + 4) (i + 6))
      let country_code ← decodeAscii (pyslice blob (i + 6) (i + 8))
      let length ← unpackU32 (pyslice blob (i + 8) (i + 12))
      let offset ← unpackU32 (pyslice blob (i + 12) (i + 16))
      let content ← decodeUtf16be (pyslice blob offset (offset + length))
      let (rest, iend) ← parseMlucLoop blob n (i + 16 + length)
      .ok (⟨name_record_size, language_code, country_code, length, offset,
            content⟩ :: rest, iend)

/-- `ICCTag.parse_multiLocalizedUnicodeType`. -/
def parse_multiLocalizedUnicodeType (blob : Bytes) : Except PyErr ElemData := do
  let element_signature ← decodeAscii (pyslice blob 0 4)
  let reserved ← unpackU32 (pyslice blob 4 8)
  let number_of_names ← unpackU32 (pyslice blob 8 12)
  let (names, iend) ← parseMlucLoop blob number_of_names 12
  let rem := pysliceFrom blob iend
  .ok (.multiLocalizedUnicodeType blob.length element_signature reserved
        number_of_names names rem)

/-- The `while i < len(blob)` loop of `parse_s15Fixed16ArrayType`. -/
def parseS15ArrayLoop (blob : Bytes) (i : Nat) : Except PyErr (List S15) :=
  if _h : i < blob.length then do
    let number ← parse_s15Fixed16Number (pyslice blob i (i + 4))
    let rest ← parseS15ArrayLoop blob (i + 4)
    .ok (number :: rest)
  else .ok []
termination_by blob.length - i

/-- `ICCTag.parse_s15Fixed16ArrayType`. -/
def parse_s15Fixed16ArrayType (blob : Bytes) : Except PyErr ElemData := do
  let element_signature ← decodeAscii (pyslice blob 0 4)
  let reserved ← unpackU32 (pyslice blob 4 8)
  let numbers ← parseS15ArrayLoop blob 8
  .ok (.s15Fixed16ArrayType blob.length element_signature reserved numbers)

/-- The `NUM_PARAMETERS` dictionary of `parse_parametricCurveType`:
a lookup outside 0..4 raises `KeyError`. -/
def NUM_PARAMETERS (encoded_value : Nat) : Except PyErr Nat :=
  match encoded_value with
  | 0 => .ok 1
  | 1 => .ok 3
  | 2 => .ok 4
  | 3 => .ok 5
  | 4 => .ok 7
  | _ => .error .keyError

/-- The parameter loop of `parse_parametricCurveType`: `n` s15Fixed16
numbers of 4 bytes each. -/
def parseParamLoop (blob : Bytes) : Nat → Nat → Except PyErr (List S15)
  | 0, _ => .ok []
  | n + 1, i => do
      let number ← parse_s15Fixed16Number (pyslice blob i (i + 4))
      let rest ← parseParamLoop blob n (i + 4)
      .ok (number :: rest)

/-- `ICCTag.parse_parametricCurveType`: signature, reserved u32, u16
function-type selector, reserved u16, then the selector-dependent number
of s15Fixed16 parameters. -/
def parse_parametricCurveType (blob : Bytes) : Except PyErr ElemData := do
  let element_signature ← decodeAscii (pyslice blob 0 4)
  let reserved ← unpackU32 (pyslice blob 4 8)
  let encoded_value ← unpackU16 (pyslice blob 8 10)
  let reserved2 ← unpackU16 (pyslice blob 10 12)
  let num_parameters ← NUM_PARAMETERS encoded_value
  let parameters ← parseParamLoop blob num_parameters 12
  .ok (.parametricCurveType blob.length element_signature reserved
        encoded_value reserved2 parameters)

/-- A parsed tag: the per-kind element data plus the tag-table header info
that `ICCTag.parse` attaches after dispatch. -/
structure ICCTag where
  header_signature : Bytes
  header_offset : Nat
  header_size : Nat
  data : ElemData
deriving DecidableEq

/-- The dispatch of `ICCTag.parse` after the element signature has been
read: every name in the element table has a `parse_*` classmethod, and an
unknown (or empty/short) signature falls back to `parse_UnimplementedType`.
(The tag-signature check against `header_table` only prints a warning.) -/
def parseElemDispatch : Option ElemName → Bytes → Except PyErr ElemData
  | some .textType, blob => parse_textType blob
  | some .textDescriptionType, blob => parse_textDescriptionType blob
  | some .multiLocalizedUnicodeType, blob => parse_multiLocalizedUnicodeType blob
  | some .XYZType, blob => parse_XYZType blob
  | some .s15Fixed16ArrayType, blob => parse_s15Fixed16ArrayType blob
  | some .curveType, blob => parse_curveType blob
  | some .parametricCurveType, blob => parse_parametricCurveType blob
  | some .chromaticityType, blob => parse_chromaticityType blob
  | none, blob => parse_UnimplementedType blob

/-- `ICCTag.parse(header_signature, header_offset, header_size, blob,
header)`. The `header` argument is accepted but unused, as in the source. -/
def ICCTag.parse (header_signature : Bytes) (header_offset header_size : Nat)
    (blob : Bytes) (_header : ICCHeader) : Except PyErr ICCTag := do
  let element_signature ← decodeAscii (pyslice blob 0 4)
  let data ← parseElemDispatch (elementTableGet element_signature) blob
  .ok ⟨header_signature, header_offset, header_size, data⟩

/-! ## Tag element packers -/

/-- `ICCTag.pack_UnimplementedType`: return `self.remaining` verbatim.
On a tag of any other kind the attribute access would raise
`AttributeError`. -/
def pack_UnimplementedType : ElemData → Except PyErr Bytes
  | .unimplementedType _ _ remaining => .ok remaining
  | _ => .error .attributeError

/-- `ICCTag.pack_textType`: `struct.pack("!4sI<len>s", signature,
reserved, text)`. -/
def pack_textType : ElemData → Except PyErr Bytes
  | .textType _ element_signature reserved text => do
      let sb ← encodeAscii element_signature
      let rb ← packU32 reserved
      let tb ← encodeAscii text
      .ok (sb ++ rb ++ tb)
  | _ => .error .attributeError

/-- `ICCTag.pack_chromaticityType`: packs the four header fields, then
iterates `for cie_xy_coordinate in self.cie_xy_coordinates:
tag += self.pack_u16Fixed16Number(number)` — `number` is an unbound name,
so the first loop iteration raises `NameError` (and the called
`pack_u16Fixed16Number` would itself raise `NameError` as well). -/
def pack_chromaticityType : ElemData → Except PyErr Bytes
  | .chromaticityType _ element_signature reserved num_device_channels
      phosphor_colorant_type cie_xy_coordinates => do
      let sb ← encodeAscii element_signature
      let rb ← packU32 reserved
      let nb ← packU16 num_device_channels
      let pb ← packU16 phosphor_colorant_type
      match cie_xy_coordinates with
      | [] => .ok (sb ++ rb ++ nb ++ pb)
      | _ :: _ => .error .nameError
  | _ => .error .attributeError

/-- `struct.pack` with a repeated format such as `"H" * n` raises
`struct.error` when the number of supplied values does not match. -/
def structArgCheck (b : Bool) : Except PyErr Unit :=
  if b then .ok () else .error .structError

/-- The `"H" * curve_count` values of `pack_curveType`. -/
def packCurveValues : List Nat → Except PyErr Bytes
  | [] => .ok []
  | v :: rest => do
      let b ← packU16 v
      let bs ← packCurveValues rest
      .ok (b ++ bs)

/-- `ICCTag.pack_curveType`. -/
def pack_curveType : ElemData → Except PyErr Bytes
  | .curveType _ element_signature reserved curve_count curve_value => do
      let sb ← encodeAscii element_signature
      let rb ← packU32 reserved
      let cb ← packU32 curve_count
      let _ ← structArgCheck (curve_count == curve_value.length)
      let vb ← packCurveValues curve_value
      .ok (sb ++ rb ++ cb ++ vb)
  | _ => .error .attributeError

/-- `ICCTag.pack_textDescriptionType`. The ascii description is packed with
`f"{ascii_length}s"`, so it is NUL-padded / truncated to the recorded
`ascii_length`; similarly the unicode bytes use `f"{unicode_length}s"`. -/
def pack_textDescriptionType : ElemData → Except PyErr Bytes
  | .textDescriptionType _ element_signature reserved ascii_length
      ascii_invariant_description unicode_language_code unicode_length
      unicode_localizable_description scriptcode_code macintosh_length
      macintosh_description rem => do
      let sb ← encodeAscii element_signature
      let rb ← packU32 reserved
      let alb ← packU32 ascii_length
      let ab ← encodeAscii ascii_invariant_description
      let ulb ← packU32 unicode_language_code
      let unlb ← packU32 unicode_length
      let scb ← packU16 scriptcode_code
      let mlb ← packB macintosh_length
      .ok (sb ++ rb ++ alb ++ structS ascii_length ab ++ ulb ++ unlb ++
           structS unicode_length unicode_localizable_description ++
           scb ++ mlb ++ macintosh_description ++ rem)
  | _ => .error .attributeError

/-- Pack each XYZ number of an XYZType in turn. -/
def packXYZNumbers : List (S15 × S15 × S15) → Except PyErr Bytes
  | [] => .ok []
  | n :: rest => do
      let b ← pack_XYZNumber n
      let bs ← packXYZNumbers rest
      .ok (b ++ bs)

/-- `ICCTag.pack_XYZType`. -/
def pack_XYZType : ElemData → Except PyErr Bytes
  | .XYZType _ element_signature reserved numbers => do
      let sb ← encodeAscii element_signature
      let rb ← packU32 reserved
      let nb ← packXYZNumbers numbers
      .ok (sb ++ rb ++ nb)
  | _ => .error .attributeError

/-- Pack one name record of a multiLocalizedUnicodeType: the 16 header
bytes followed by the re-encoded UTF-16BE content. -/
def packMlucNames : List MlucName → Except PyErr Bytes
  | [] => .ok []
  | name :: rest => do
      let content_bytes ← encodeUtf16be name.content
      let nrb ← packU32 name.name_record_size
      let lb ← encodeAscii name.language_code
      let cb ← encodeAscii name.country_code
      let lenb ← packU32 name.length
      let offb ← packU32 name.offset
      let bs ← packMlucNames rest
      .ok (nrb ++ lb ++ cb ++ lenb ++ offb ++ content_bytes ++ bs)

/-- `ICCTag.pack_multiLocalizedUnicodeType`. -/
def pack_multiLocalizedUnicodeType : ElemData → Except PyErr Bytes
  | .multiLocalizedUnicodeType _ element_signature reserved number_of_names
      names rem => do
      let sb ← encodeAscii element_signature
      let rb ← packU32 reserved
      let nnb ← packU32 number_of_names
      let nb ← packMlucNames names
      .ok (sb ++ rb ++ nnb ++ nb ++ rem)
  | _ => .error .attributeError

/-- Pack each s15Fixed16 number of an s15Fixed16ArrayType in turn. -/
def packS15Numbers : List S15 → Except PyErr Bytes
  | [] => .ok []
  | n :: rest => do
      let b ← pack_s15Fixed16Number n
      let bs ← packS15Numbers rest
      .ok (b ++ bs)

/-- `ICCTag.pack_s15Fixed16ArrayType`. -/
def pack_s15Fixed16ArrayType : ElemData → Except PyErr Bytes
  | .s15Fixed16ArrayType _ element_signature reserved numbers => do
      let sb ← encodeAscii element_signature
      let rb ← packU32 reserved
      let nb ← packS15Numbers numbers
      .ok (sb ++ rb ++ nb)
  | _ => .error .attributeError

/-- `ICCTag.pack_parametricCurveType`. -/
def pack_parametricCurveType : ElemData → Except PyErr Bytes
  | .parametricCurveType _ element_signature reserved encoded_value reserved2
      parameters => do
      let sb ← encodeAscii element_signature
      let rb ← packU32 reserved
      let eb ← packU16 encoded_value
      let r2b ← packU16 reserved2
      let pb ← packS15Numbers parameters
      .ok (sb ++ rb ++ eb ++ r2b ++ pb)
  | _ => .error .attributeError

/-- The pack dispatch of `ICCTag.pack`: look the stored element signature
up in the element table and run the matching `pack_*` method, falling back
to `pack_UnimplementedType` for unknown signatures. -/
def packElemDispatch : Option ElemName → ElemData → Except PyErr Bytes
  | some .textType, d => pack_textType d
  | some .textDescriptionType, d => pack_textDescriptionType d
  | some .multiLocalizedUnicodeType, d => pack_multiLocalizedUnicodeType d
  | some .XYZType, d => pack_XYZType d
  | some .s15Fixed16ArrayType, d => pack_s15Fixed16ArrayType d
  | some .curveType, d => pack_curveType d
  | some .parametricCurveType, d => pack_parametricCurveType d
  | some .chromaticityType, d => pack_chromaticityType d
  | none, d => pack_UnimplementedType d

/-- `ICCTag.pack`. -/
def ICCTag.pack (t : ICCTag) : Except PyErr Bytes :=
  packElemDispatch (elementTableGet t.data.sigOf) t.data

/-! ## Tag table and profile assembly (`ICCProfile`) -/

/-- A value of the offset-keyed `profile.elements` dictionary. The parse
loop stores a single tag the first time an offset appears and silently
promotes the entry to a Python list when the offset is shared. -/
inductive ElemEntry where
  | single (t : ICCTag)
  | multi (ts : List ICCTag)
deriving DecidableEq

/-- `tag.pack()` on a pool entry: a Python list has no `pack` method, so a
shared (list-promoted) entry raises `AttributeError`. -/
def ElemEntry.pack : ElemEntry → Except PyErr Bytes
  | .single t => t.pack
  | .multi _ => .error .attributeError

/-- The `profile.elements[header_offset]` update of the parse loop:
insertion-ordered dictionary with list promotion on repeated offsets. -/
def elemsInsert : List (Nat × ElemEntry) → Nat → ICCTag → List (Nat × ElemEntry)
  | [], off, t => [(off, .single t)]
  | (o, v) :: rest, off, t =>
      if o = off then
        match v with
        | .single t0 => (o, .multi [t0, t]) :: rest
        | .multi ts => (o, .multi (ts ++ [t])) :: rest
      else (o, v) :: elemsInsert rest off t

/-- Dictionary lookup `d[k]` on the element pool: missing key raises
`KeyError`. -/
def elemsFind : List (Nat × ElemEntry) → Nat → Except PyErr ElemEntry
  | [], _ => .error .keyError
  | (o, v) :: rest, off => if o = off then .ok v else elemsFind rest off

/-- `del d[k]` on the element pool (the key is present when reached). -/
def elemsErase : List (Nat × ElemEntry) → Nat → List (Nat × ElemEntry)
  | [], _ => []
  | (o, v) :: rest, off =>
      if o = off then rest else (o, v) :: elemsErase rest off

/-- The decoded profile: header, stored tag count, the tag table in
directory order as (signature, offset) pairs, and the offset-keyed
element pool in insertion order. `tag_count` is a Python int (it is
decremented by the copyright edit), hence `Int`. -/
structure ICCProfile where
  header : ICCHeader
  tag_count : Int
  tag_table : List (Bytes × Nat)
  elements : List (Nat × ElemEntry)
deriving DecidableEq

/-- The per-entry loop of `ICCProfile.parse`: read (signature, offset,
size), slice the element payload (silently truncated by Python slicing if
offset+size exceeds the blob), parse the tag, and record it in the table
and the pool. -/
def parseTags (blob : Bytes) (header : ICCHeader) :
    Nat → Nat → List (Bytes × Nat) → List (Nat × ElemEntry) →
    Except PyErr (List (Bytes × Nat) × List (Nat × ElemEntry))
  | 0, _, table, elems => .ok (table, elems)
  | n + 1, i, table, elems => do
      let header_signature ← decodeAscii (pyslice blob i (i + 4))
      let header_offset ← unpackU32 (pyslice blob (i + 4) (i + 8))
      let header_size ← unpackU32 (pyslice blob (i + 8) (i + 12))
      let tag ← ICCTag.parse header_signature header_offset header_size
        (pyslice blob header_offset (header_offset + header_size)) header
      parseTags blob header n (i + 12) (table ++ [(header_signature, header_offset)])
        (elemsInsert elems header_offset tag)

/-- `ICCProfile.parse(blob, force_version_number)`. -/
def ICCProfile.parse (blob : Bytes) (force_version_number : Option Bytes) :
    Except PyErr ICCProfile := do
  let (header, i) ← ICCHeader.parse blob force_version_number
  let tag_count ← unpackU32 (pyslice blob i (i + 4))
  let (tag_table, elements) ← parseTags blob header tag_count (i + 4) [] []
  .ok ⟨header, (tag_count : Int), tag_table, elements⟩

/-! ## Copyright-removal edit (`remove_copyright`) -/

/-- Ascii code points of the copyright tag signature `"cprt"`. -/
def cprtSig : Bytes := [99, 112, 114, 116]

/-- Step 3 of `remove_copyright`: for each offset in the final removal
list, `elements_savings += len(profile.elements[offset].pack())` and then
`del profile.elements[offset]`. A missing key raises `KeyError`; a shared
(list-valued) entry raises `AttributeError` inside `.pack()`. -/
def removeElems : List Nat → List (Nat × ElemEntry) →
    Except PyErr (List (Nat × ElemEntry))
  | [], elems => .ok elems
  | off :: rest, elems => do
      let entry ← elemsFind elems off
      let _ ← entry.pack
      removeElems rest (elemsErase elems off)

/-- `remove_copyright(profile, debug)` (the `debug` argument is unused).

Step 1 collects the offsets of `"cprt"` entries and keeps the others, in
order. Step 2 is the source line
`if offset_candidate in (offset for (offset, _) in profile.tag_table)`:
the generator unpacks the `(signature, offset)` pairs as `(offset, _)`, so
it yields the signature strings, and an integer offset never equals a
string in Python — the membership test is always False and every candidate
reaches the final removal list unchanged. -/
def remove_copyright (p : ICCProfile) : Except PyErr ICCProfile := do
  let elements ← removeElems
    ((p.tag_table.filter (fun e => e.1 == cprtSig)).map Prod.snd) p.elements
  .ok ⟨p.header,
       p.tag_count -
         (((p.tag_table.filter (fun e => e.1 == cprtSig)).map Prod.snd).length : Int),
       p.tag_table.filter (fun e => ! (e.1 == cprtSig)), elements⟩

/-! ## Profile writer (`write_icc_profile`, minus the file output) -/

/-- `offset_dict[offset] = (len(elements_bytes), len(tag_bytes))`:
insertion-ordered dictionary update. -/
def dictInsert : List (Nat × Nat × Nat) → Nat → Nat × Nat →
    List (Nat × Nat × Nat)
  | [], k, v => [(k, v)]
  | (k0, v0) :: rest, k, v =>
      if k0 = k then (k0, v) :: rest else (k0, v0) :: dictInsert rest k v

/-- `offset_dict[in_offset]` lookup: missing key raises `KeyError`. -/
def dictFind : List (Nat × Nat × Nat) → Nat → Except PyErr (Nat × Nat)
  | [], _ => .error .keyError
  | (k0, v0) :: rest, k => if k0 = k then .ok v0 else dictFind rest k

/-- Step 2 of `write_icc_profile`: pack every pooled element in dictionary
(insertion) order, recording each element's (offset within the element
region, packed length). -/
def packElements : List (Nat × ElemEntry) → List (Nat × Nat × Nat) → Bytes →
    Except PyErr (List (Nat × Nat × Nat) × Bytes)
  | [], offset_dict, elements_bytes => .ok (offset_dict, elements_bytes)
  | (offset, tag) :: rest, offset_dict, elements_bytes => do
      let tag_bytes ← tag.pack
      packElements rest
        (dictInsert offset_dict offset (elements_bytes.length, tag_bytes.length))
        (elements_bytes ++ tag_bytes)

/-- Step 3 of `write_icc_profile`: serialize the directory entries in tag
table order. Each entry is the ascii signature, then
`header_size + tag_table_size + offset_out` and the recorded size, both as
`I` fields. -/
def packTagTable (offset_dict : List (Nat × Nat × Nat)) (header_size : Nat)
    (tag_table_size : Int) :
    List (Bytes × Nat) → Except PyErr Bytes
  | [] => .ok []
  | (signature, in_offset) :: rest => do
      let (offset_out, size) ← dictFind offset_dict in_offset
      let sb ← encodeAscii signature
      let ob ← packU32I ((header_size : Int) + tag_table_size + (offset_out : Int))
      let zb ← packU32I (size : Int)
      let restBytes ← packTagTable offset_dict header_size tag_table_size rest
      .ok (sb ++ ob ++ zb ++ restBytes)

/-- `write_icc_profile(profile, outfile, debug)` minus the final file
write: returns `total_bytes`. Packs the header, then every pooled element,
asserts `tag_count == len(tag_table)`, packs the tag table with recomputed
absolute offsets, then re-packs the header with `profile_size` set to the
total length and concatenates. -/
def write_icc_profile (p : ICCProfile) : Except PyErr Bytes := do
  let header_bytes ← p.header.pack
  let (offset_dict, elements_bytes) ← packElements p.elements [] []
  let _ ← pyassert (p.tag_count == (p.tag_table.length : Int))
  let cnt ← packU32I p.tag_count
  let entries ← packTagTable offset_dict header_bytes.length
    (4 + 12 * p.tag_count) p.tag_table
  let header_bytes2 ← ICCHeader.pack { p.header with profile_size :=
    (header_bytes ++ (cnt ++ entries) ++ elements_bytes).length }
  .ok (header_bytes2 ++ (cnt ++ entries) ++ elements_bytes)

/-- The directory-reading projection of the `ICCProfile.parse` loop: from
index `i`, read `n` directory entries exactly as the parse loop does
(ascii signature, offset u32, size u32) and return the signatures in
order, without touching the element payloads. -/
def readSigsLoop (blob : Bytes) : Nat → Nat → Except PyErr (List Bytes)
  | 0, _ => .ok []
  | n + 1, i => do
      let sig ← decodeAscii (pyslice blob i (i + 4))
      let _off ← unpackU32 (pyslice blob (i + 4) (i + 8))
      let _size ← unpackU32 (pyslice blob (i + 8) (i + 12))
      let rest ← readSigsLoop blob n (i + 12)
      .ok (sig :: rest)

/-! ## Concrete test fixtures -/

/-- Big-endian 4-byte encoding of a number below 2^32 (for building test
blobs). -/
def be32 (n : Nat) : Bytes := [n / 16777216, n / 65536 % 256, n / 256 % 256, n % 256]

/-- A minimal valid 128-byte header blob: all zero except the `"acsp"`
file signature at offset 36. -/
def hdr128 : Bytes := List.replicate 36 0 ++ acspSig ++ List.replicate 88 0

/-- An 84-byte truncated header blob: all fixed-field reads up to the
creator field (ending at byte 84) succeed, and the id/reserved fields are
unchecked slices. -/
def blob84 : Bytes := List.replicate 36 0 ++ acspSig ++ List.replicate 44 0

/-- A blob whose single directory entry points at offset 500 with size 16,
far beyond the 144-byte blob. -/
def oobBlob : Bytes := hdr128 ++ be32 1 ++ [97, 98, 99, 100] ++ be32 500 ++ be32 16

/-- A minimal 10-byte textType element: `"text"`, 4 reserved zero bytes,
`"hi"`. -/
def textElem : Bytes := sigTextType ++ [0, 0, 0, 0] ++ [104, 105]

/-- A second 10-byte textType element with different text (`"ho"`). -/
def textElem2 : Bytes := sigTextType ++ [0, 0, 0, 0] ++ [104, 111]

/-- A profile whose two directory entries — one `"cprt"`, one `"desc"` —
share the element at offset 156. -/
def blobShared1 : Bytes :=
  hdr128 ++ be32 2 ++ cprtSig ++ be32 156 ++ be32 10 ++
  [100, 101, 115, 99] ++ be32 156 ++ be32 10 ++ textElem

/-- A profile whose two directory entries are both `"cprt"` and share the
element at offset 156. -/
def blobShared2 : Bytes :=
  hdr128 ++ be32 2 ++ cprtSig ++ be32 156 ++ be32 10 ++
  cprtSig ++ be32 156 ++ be32 10 ++ textElem

/-- A canonical 154-byte profile blob: header, one `"targ"` entry, and its
textType element laid out contiguously at offset 144 with the recorded
size 10 — the ideal round-trip input. -/
def blobText : Bytes :=
  hdr128 ++ be32 1 ++ [116, 97, 114, 103] ++ be32 144 ++ be32 10 ++ textElem

/-- A 20-byte chromaticityType element payload with one device channel. -/
def chrmPayload : Bytes :=
  sigChrmType ++ [0, 0, 0, 0] ++ [0, 1] ++ [0, 0] ++ List.replicate 8 0

/-- A canonical profile blob containing a single chromaticityType element. -/
def blobChrm : Bytes :=
  hdr128 ++ be32 1 ++ sigChrmType ++ be32 144 ++ be32 20 ++ chrmPayload

/-- A profile with one `"cprt"` entry (offset 156) and one `"desc"` entry
(offset 166), each with its own textType element. -/
def blobTwoTags : Bytes :=
  hdr128 ++ be32 2 ++ cprtSig ++ be32 156 ++ be32 10 ++
  [100, 101, 115, 99] ++ be32 166 ++ be32 10 ++ textElem ++ textElem2

/-- A profile with a single `"cprt"` entry and its textType element. -/
def blobOneCprt : Bytes :=
  hdr128 ++ be32 1 ++ cprtSig ++ be32 144 ++ be32 10 ++ textElem

/-- The version-override string `"4.3.0"` as code points. -/
def ver430 : Bytes := [52, 46, 51, 46, 48]

/-- An all-zero header value (used where `ICCTag.parse` needs its unused
`header` argument). -/
def zeroHeader : ICCHeader :=
  ⟨0, 0, (0, 0, 0, 0), [], [], [], (0, 0, 0, 0, 0, 0), [], [], 0, 0, 0, [],
   0, ((0, 0), (0, 0), (0, 0)), 0, [], []⟩

/-- A parametric-curve payload with selector 2 (4 parameters): 28 bytes. -/
def paraPayload : Bytes :=
  sigParaType ++ [0, 0, 0, 0] ++ [0, 2] ++ [0, 0] ++ List.replicate 16 0

/-- A parametric-curve payload with the out-of-range selector 7. -/
def paraBadPayload : Bytes :=
  sigParaType ++ [0, 0, 0, 0] ++ [0, 7] ++ [0, 0] ++ List.replicate 16 0

/-- A 12-byte payload whose leading signature `0x80 0 0 0` is not ascii. -/
def nonAsciiPayload : Bytes := [128, 0, 0, 0] ++ List.replicate 8 0

/-- A 12-byte payload with the unknown but ascii signature `"abcd"`. -/
def unknownPayload : Bytes := [97, 98, 99, 100] ++ List.replicate 8 0

/-! ## General lemmas about the embedding monad -/

theorem exceptIsOk_exists {x : Except PyErr α} (h : exceptIsOk x = true) :
    ∃ a, x = .ok a := by
  cases x with
  | ok a => exact ⟨a, rfl⟩
  | error e => simp [exceptIsOk] at h

theorem bind_ok_iff {α β : Type} {x : Except PyErr α} {f : α → Except PyErr β} {b : β} :
    (x >>= f) = .ok b ↔ ∃ a, x = .ok a ∧ f a = .ok b := by
  cases x <;> simp [Bind.bind, Except.bind]

theorem bind_ne_error {α β : Type} {x : Except PyErr α} {f : α → Except PyErr β}
    {e : PyErr} (hx : x ≠ .error e) (hf : ∀ a, f a ≠ .error e) :
    (x >>= f) ≠ .error e := by
  cases x with
  | ok a => simpa [Bind.bind, Except.bind] using hf a
  | error e' =>
      simp only [Bind.bind, Except.bind]
      intro h
      exact hx (by rw [Except.error.inj h])


/-! ## Fixed-point codec lemmas -/

theorem unpackS16_packS16 (w : Int) (h1 : -32768 ≤ w) (h2 : w < 32768) :
    unpackS16 [(w % 65536).toNat / 256, (w % 65536).toNat % 256] = .ok w := by
  simp only [unpackS16, Except.ok.injEq]
  split <;> omega

theorem unpackU16_packU16 (f : Nat) :
    unpackU16 [f / 256, f % 256] = .ok f := by
  simp only [unpackU16, Except.ok.injEq]
  omega

theorem s15_roundtrip (whole : Int) (frac : Nat)
    (h1 : -32768 ≤ whole) (h2 : whole < 32768) (h3 : frac < 65536) :
    (pack_s15Fixed16Number (whole, frac) >>= parse_s15Fixed16Number) =
      .ok (whole, frac) := by
  have hp : pack_s15Fixed16Number (whole, frac) =
      .ok [(whole % 65536).toNat / 256, (whole % 65536).toNat % 256,
           frac / 256, frac % 256] := by
    simp only [pack_s15Fixed16Number, packS16, packU16, if_pos h3, if_pos (And.intro h1 h2),
      Bind.bind, Except.bind]
    rfl
  rw [hp]
  simp only [Bind.bind, Except.bind, parse_s15Fixed16Number, pyslice]
  norm_num [List.drop, List.take]
  rw [unpackS16_packS16 whole h1 h2, unpackU16_packU16 frac]

/-! ## Claim C3 -/

/-- C3: the signed 16.16 round trip holds — for every `(whole, frac)` with
`whole` a 16-bit signed integer and `frac` a 16-bit unsigned integer,
decoding the 4 bytes produced by `pack_s15Fixed16Number` returns exactly
`(whole, frac)`. The unsigned form, however, FAILS on the code: the final
`pack_u16Fixed16Number` classmethod packs the undefined name `s15Fixed`,
so it raises `NameError` on every input, here evaluated at `(1, 0)`. -/
theorem claim_C3 :
    (∀ (whole : Int) (frac : Nat), -32768 ≤ whole → whole < 32768 →
      frac < 65536 →
      (pack_s15Fixed16Number (whole, frac) >>= parse_s15Fixed16Number) =
        .ok (whole, frac)) ∧
    pack_u16Fixed16Number (1, 0) = .error .nameError := by
  constructor
  · intro whole frac h1 h2 h3
    exact s15_roundtrip whole frac h1 h2 h3
  · rfl

/-- Witness for C3: the signed round trip evaluated at `(-2, 77)`. -/
theorem claim_C3_witness :
    (pack_s15Fixed16Number (-2, 77) >>= parse_s15Fixed16Number) = .ok (-2, 77) :=
  claim_C3.1 (-2) 77 (by norm_num) (by norm_num) (by norm_num)

/-! ## Claim C1 -/

set_option maxRecDepth 200000 in
/-- C1: evaluation of the copyright edit on decoded profiles with two
directory entries sharing one offset. Both decodes succeed, and in BOTH
cases — exactly one of the sharing entries is `"cprt"` (`blobShared1`),
or both are (`blobShared2`) — `remove_copyright` raises `AttributeError`
instead of performing the claimed edit: the parse loop stores the shared
offset as a Python list of tags, the broken reference check
(`(offset for (offset, _) in profile.tag_table)` yields signatures, never
matching an integer offset) sends the shared offset to the deletion loop,
and `profile.elements[offset].pack()` fails because a list has no `pack`. -/
theorem claim_C1 :
    (exceptIsOk (ICCProfile.parse blobShared1 none) = true ∧
      (ICCProfile.parse blobShared1 none >>= remove_copyright) =
        .error .attributeError) ∧
    (exceptIsOk (ICCProfile.parse blobShared2 none) = true ∧
      (ICCProfile.parse blobShared2 none >>= remove_copyright) =
        .error .attributeError) :=
  ⟨⟨rfl, rfl⟩, ⟨rfl, rfl⟩⟩

/-! ## Claim C2 -/

set_option maxRecDepth 200000 in
/-- C2: the decode-then-encode round trip is NOT byte-identical even for a
canonical blob whose only element kind (`textType`) is implemented:
`blobText` is 154 bytes with the element laid out exactly where the
directory says, yet the re-encoded output is 143 bytes, because
`ICCHeader.pack` emits the illuminant with a bare `"s"` struct format
(1 byte instead of 12). Moreover for `blobChrm`, whose single element kind
(`chromaticityType`) is also in the implemented set, re-encoding raises
`NameError` outright in `pack_chromaticityType`. -/
theorem claim_C2 :
    exceptIsOk (ICCProfile.parse blobText none) = true ∧
    (ICCProfile.parse blobText none >>= write_icc_profile).map List.length =
      .ok 143 ∧
    blobText.length = 154 ∧
    (ICCProfile.parse blobChrm none >>= write_icc_profile) = .error .nameError :=
  ⟨rfl, rfl, rfl, rfl⟩

/-! ## Claim C4 -/

set_option maxRecDepth 200000 in
/-- C4: packing is NOT total on decoded elements: a chromaticityType
payload with one device channel parses successfully via the normal
dispatch, but packing the resulting element raises `NameError`
(`pack_chromaticityType` iterates `self.pack_u16Fixed16Number(number)`
with `number` unbound). -/
theorem claim_C4 :
    exceptIsOk (ICCTag.parse sigChrmType 0 20 chrmPayload zeroHeader) = true ∧
    (ICCTag.parse sigChrmType 0 20 chrmPayload zeroHeader >>= ICCTag.pack) =
      .error .nameError :=
  ⟨rfl, rfl⟩

/-! ## Claim C5: counterexample -/

set_option maxRecDepth 200000 in
/-- C5 counterexample: an 84-byte buffer (shorter than 128 bytes) whose
header decode SUCCEEDS — the trailing id/reserved fields are unchecked
slices — and a 144-byte blob whose single directory entry has
offset 500 + size 16 far beyond the blob length, yet whose decode also
SUCCEEDS (the element slice silently truncates to empty and parses via the
unimplemented-kind fallback). -/
theorem claim_C5_counterexample :
    (exceptIsOk (ICCHeader.parse blob84 none) = true ∧ blob84.length = 84) ∧
    (exceptIsOk (ICCProfile.parse oobBlob none) = true ∧ oobBlob.length = 144) :=
  ⟨⟨rfl, rfl⟩, ⟨rfl, rfl⟩⟩

theorem bind_ok {α β : Type} {x : Except PyErr α} {f : α → Except PyErr β} {b : β}
    (h : (x >>= f) = .ok b) : ∃ a, x = .ok a ∧ f a = .ok b :=
  bind_ok_iff.mp h

theorem unpackU32_ok_length {bs : Bytes} {v : Nat} (h : unpackU32 bs = .ok v) :
    bs.length = 4 := by
  rcases bs with _ | ⟨a, _ | ⟨b, _ | ⟨c, _ | ⟨d, _ | rest⟩⟩⟩⟩ <;>
    simp [unpackU32] at h ⊢

/-! ## Claim C7 -/

set_option maxRecDepth 8000 in
/-- C7 counterexample: a payload whose leading 4 bytes are `0x80 0 0 0`
(not ascii) makes `ICCTag.parse` raise `UnicodeDecodeError` at the
`blob[0:4].decode("ascii")` step, BEFORE the fallback can be selected —
so parsing an unhandled payload is not failure-free as claimed. -/
theorem claim_C7_counterexample :
    ICCTag.parse [116, 97, 114, 103] 0 12 nonAsciiPayload zeroHeader =
      .error .unicodeDecodeError :=
  rfl

/-- C7 (amended): for every payload whose leading 4-byte element-type
signature is ascii-decodable AND not in the implemented element table,
`ICCTag.parse` succeeds with the fallback kind storing the verbatim
payload, and `ICCTag.pack` on the resulting tag returns exactly the
original payload bytes — `pack(parse(x)) = x` for unhandled-but-ascii
kinds. (The original claim's "never fails" is refuted by
`claim_C7_counterexample`.) -/
theorem claim_C7 (blob hs : Bytes) (off sz : Nat) (hdr : ICCHeader)
    (hascii : (pyslice blob 0 4).all (· < 128) = true)
    (hunimpl : elementTableGet (pyslice blob 0 4) = none) :
    ICCTag.parse hs off sz blob hdr =
      .ok ⟨hs, off, sz, .unimplementedType blob.length (pyslice blob 0 4) blob⟩ ∧
    ICCTag.pack ⟨hs, off, sz,
        .unimplementedType blob.length (pyslice blob 0 4) blob⟩ = .ok blob := by
  have hdec : decodeAscii (pyslice blob 0 4) = .ok (pyslice blob 0 4) := by
    simp [decodeAscii, hascii]
  constructor
  · simp only [ICCTag.parse, hdec, Bind.bind, Except.bind, hunimpl,
      parseElemDispatch, parse_UnimplementedType]
  · simp only [ICCTag.pack, ElemData.sigOf, hunimpl, packElemDispatch,
      pack_UnimplementedType]

/-- Witness for C7: the amended round trip evaluated on a 12-byte payload
with the unknown ascii signature `"abcd"`. -/
theorem claim_C7_witness :
    ICCTag.parse [116, 97, 114, 103] 0 12 unknownPayload zeroHeader =
      .ok ⟨[116, 97, 114, 103], 0, 12,
        .unimplementedType unknownPayload.length (pyslice unknownPayload 0 4)
          unknownPayload⟩ ∧
    ICCTag.pack ⟨[116, 97, 114, 103], 0, 12,
        .unimplementedType unknownPayload.length (pyslice unknownPayload 0 4)
          unknownPayload⟩ = .ok unknownPayload :=
  claim_C7 unknownPayload [116, 97, 114, 103] 0 12 zeroHeader (by rfl) (by rfl)

/-! ## Claim C5: amended -/

set_option maxRecDepth 8000 in
/-- C5 (amended): header decoding fails for every input shorter than 84
bytes — equivalently, a successful `ICCHeader.parse` implies at least 84
bytes were available (the last checked read is the creator field at bytes
80..84; the id and reserved fields after it are unchecked slices, so
84..127-byte inputs can succeed, refuting the original "< 128 fails").
And a directory entry whose offset+size exceeds the blob length does not
by itself make decoding fail: the payload slice silently truncates, as in
`oobBlob` (entry offset 500, size 16, blob length 144), which decodes
successfully. -/
theorem claim_C5 :
    (∀ (blob : Bytes) (fvn : Option Bytes) (r : ICCHeader × Nat),
        ICCHeader.parse blob fvn = .ok r → 84 ≤ blob.length) ∧
    exceptIsOk (ICCProfile.parse oobBlob none) = true := by
  constructor
  · intro blob fvn r hp
    unfold ICCHeader.parse at hp
    obtain ⟨ps, _, hp⟩ := bind_ok hp
    obtain ⟨cmm, _, hp⟩ := bind_ok hp
    obtain ⟨pvn0, _, hp⟩ := bind_ok hp
    obtain ⟨pvn, _, hp⟩ := bind_ok hp
    obtain ⟨dc, _, hp⟩ := bind_ok hp
    obtain ⟨cs, _, hp⟩ := bind_ok hp
    obtain ⟨pcs, _, hp⟩ := bind_ok hp
    obtain ⟨dt, _, hp⟩ := bind_ok hp
    obtain ⟨fs, _, hp⟩ := bind_ok hp
    obtain ⟨u, _, hp⟩ := bind_ok hp
    obtain ⟨pps, _, hp⟩ := bind_ok hp
    obtain ⟨flags, _, hp⟩ := bind_ok hp
    obtain ⟨manu, _, hp⟩ := bind_ok hp
    obtain ⟨model, _, hp⟩ := bind_ok hp
    obtain ⟨rend, _, hp⟩ := bind_ok hp
    obtain ⟨xyz, _, hp⟩ := bind_ok hp
    obtain ⟨creator, hcreator, hp⟩ := bind_ok hp
    have h4 := unpackU32_ok_length hcreator
    simp only [pyslice, List.length_take, List.length_drop] at h4
    omega
  · rfl

/-- Witness for C5 (amended): the bound applied to a full 128-byte blob
that parses successfully. -/
theorem claim_C5_witness : 84 ≤ hdr128.length := by
  obtain ⟨r, hr⟩ := exceptIsOk_exists
    (show exceptIsOk (ICCHeader.parse hdr128 none) = true from rfl)
  exact claim_C5.1 hdr128 none r hr

/-! ## Claim C8 -/

/-- C8: decoding any header blob with the version override `"4.3.0"`
yields a header whose version number is exactly `(4, 3, 0, 0)` — major 4,
minor 3, bug-fix 0, reserved low word 0 — independent of the version bytes
in the blob. -/
theorem claim_C8 (blob : Bytes) (r : ICCHeader × Nat)
    (hp : ICCHeader.parse blob (some ver430) = .ok r) :
    r.1.profile_version_number = (4, 3, 0, 0) := by
  unfold ICCHeader.parse at hp
  obtain ⟨ps, _, hp⟩ := bind_ok hp
  obtain ⟨cmm, _, hp⟩ := bind_ok hp
  obtain ⟨pvn0, _, hp⟩ := bind_ok hp
  obtain ⟨pvn, h4, hp⟩ := bind_ok hp
  have h4' : set_VersionNumber ver430 = .ok pvn := h4
  have hc : set_VersionNumber ver430 = .ok (4, 3, 0, 0) := by rfl
  rw [hc] at h4'
  have hpvn : pvn = (4, 3, 0, 0) := (Except.ok.inj h4').symm
  obtain ⟨dc, _, hp⟩ := bind_ok hp
  obtain ⟨cs, _, hp⟩ := bind_ok hp
  obtain ⟨pcs, _, hp⟩ := bind_ok hp
  obtain ⟨dt, _, hp⟩ := bind_ok hp
  obtain ⟨fs, _, hp⟩ := bind_ok hp
  obtain ⟨u, _, hp⟩ := bind_ok hp
  obtain ⟨pps, _, hp⟩ := bind_ok hp
  obtain ⟨flags, _, hp⟩ := bind_ok hp
  obtain ⟨manu, _, hp⟩ := bind_ok hp
  obtain ⟨model, _, hp⟩ := bind_ok hp
  obtain ⟨rend, _, hp⟩ := bind_ok hp
  obtain ⟨xyz, _, hp⟩ := bind_ok hp
  obtain ⟨creator, _, hp⟩ := bind_ok hp
  have hr := Except.ok.inj hp
  rw [← hr]
  exact hpvn

/-- Witness for C8: a concrete 128-byte blob decoded with the override. -/
theorem claim_C8_witness :
    ∃ r, ICCHeader.parse hdr128 (some ver430) = .ok r ∧
      r.1.profile_version_number = (4, 3, 0, 0) := by
  obtain ⟨r, hr⟩ := exceptIsOk_exists
    (show exceptIsOk (ICCHeader.parse hdr128 (some ver430)) = true from rfl)
  exact ⟨r, hr, claim_C8 hdr128 r hr⟩

/-! ## Claim C9 -/

theorem NUM_PARAMETERS_ok_le {ev n : Nat} (h : NUM_PARAMETERS ev = .ok n) :
    ev ≤ 4 := by
  rcases ev with _ | _ | _ | _ | _ | ev5 <;> first
    | omega
    | simp [NUM_PARAMETERS] at h

theorem NUM_PARAMETERS_big {ev : Nat} (h : 4 < ev) :
    NUM_PARAMETERS ev = .error .keyError := by
  rcases ev with _ | _ | _ | _ | _ | ev5 <;> first
    | omega
    | rfl

theorem parseParamLoop_length {blob : Bytes} :
    ∀ {n i : Nat} {l : List S15}, parseParamLoop blob n i = .ok l →
      l.length = n := by
  intro n
  induction n with
  | zero =>
      intro i l h
      simp only [parseParamLoop, Except.ok.injEq] at h
      simp [← h]
  | succ n ih =>
      intro i l h
      unfold parseParamLoop at h
      obtain ⟨num, _, h⟩ := bind_ok h
      obtain ⟨rest, hrest, h⟩ := bind_ok h
      have hl := Except.ok.inj h
      rw [← hl]
      simp [ih hrest]

/-- C9: `parse_parametricCurveType` reads the u16 function-type selector at
bytes 8..10 (after the 4-byte signature and the reserved u32), and (a) on
every successful parse the selector is in 0..4 and the parameter list has
exactly the `NUM_PARAMETERS` count for that selector — 1, 3, 4, 5, or 7 —
while (b) whenever the selector read yields a value above 4, the parse
fails (the `NUM_PARAMETERS` dictionary lookup raises `KeyError`, or an
earlier read raises first). -/
theorem claim_C9 :
    (∀ (blob : Bytes) (d : ElemData), parse_parametricCurveType blob = .ok d →
      ∃ es sig res ev r2 params n,
        d = .parametricCurveType es sig res ev r2 params ∧
        NUM_PARAMETERS ev = .ok n ∧ params.length = n ∧ ev ≤ 4) ∧
    (∀ (blob : Bytes) (v : Nat), unpackU16 (pyslice blob 8 10) = .ok v →
      4 < v → ∃ e, parse_parametricCurveType blob = .error e) := by
  constructor
  · intro blob d hp
    unfold parse_parametricCurveType at hp
    obtain ⟨sig, _, hp⟩ := bind_ok hp
    obtain ⟨res, _, hp⟩ := bind_ok hp
    obtain ⟨ev, _, hp⟩ := bind_ok hp
    obtain ⟨r2, _, hp⟩ := bind_ok hp
    obtain ⟨n, hn, hp⟩ := bind_ok hp
    obtain ⟨params, hparams, hp⟩ := bind_ok hp
    have hd := Except.ok.inj hp
    exact ⟨blob.length, sig, res, ev, r2, params, n, hd.symm, hn,
      parseParamLoop_length hparams, NUM_PARAMETERS_ok_le hn⟩
  · intro blob v hv hbig
    cases hsig : decodeAscii (pyslice blob 0 4) with
    | error e =>
        exact ⟨e, by simp [parse_parametricCurveType, hsig, Bind.bind, Except.bind]⟩
    | ok sig =>
        cases hres : unpackU32 (pyslice blob 4 8) with
        | error e =>
            exact ⟨e, by
              simp [parse_parametricCurveType, hsig, hres, Bind.bind, Except.bind]⟩
        | ok res =>
            cases hr2 : unpackU16 (pyslice blob 10 12) with
            | error e =>
                exact ⟨e, by
                  simp [parse_parametricCurveType, hsig, hres, hv, hr2,
                    Bind.bind, Except.bind]⟩
            | ok r2 =>
                exact ⟨.keyError, by
                  simp [parse_parametricCurveType, hsig, hres, hv, hr2,
                    NUM_PARAMETERS_big hbig, Bind.bind, Except.bind]⟩

/-- Witness for C9: part (a) applied to a selector-2 payload (4
parameters) and part (b) applied to a selector-7 payload. -/
theorem claim_C9_witness :
    (∃ d, parse_parametricCurveType paraPayload = .ok d ∧
      ∃ es sig res ev r2 params n,
        d = .parametricCurveType es sig res ev r2 params ∧
        NUM_PARAMETERS ev = .ok n ∧ params.length = n ∧ ev ≤ 4) ∧
    (∃ e, parse_parametricCurveType paraBadPayload = .error e) := by
  constructor
  · obtain ⟨d, hd⟩ := exceptIsOk_exists
      (show exceptIsOk (parse_parametricCurveType paraPayload) = true from rfl)
    exact ⟨d, hd, claim_C9.1 paraPayload d hd⟩
  · exact claim_C9.2 paraBadPayload 7 (by rfl) (by omega)

/-! ## No step of packing raises AssertionError (for claim C10) -/

theorem packU32_ne_assert (v : Nat) : packU32 v ≠ .error .assertionError := by
  unfold packU32; split <;> simp

theorem packU32I_ne_assert (v : Int) : packU32I v ≠ .error .assertionError := by
  unfold packU32I; split
  · exact packU32_ne_assert _
  · simp

theorem packU16_ne_assert (v : Nat) : packU16 v ≠ .error .assertionError := by
  unfold packU16; split <;> simp

theorem packB_ne_assert (v : Nat) : packB v ≠ .error .assertionError := by
  unfold packB; split <;> simp

theorem packS16_ne_assert (v : Int) : packS16 v ≠ .error .assertionError := by
  unfold packS16; split <;> simp

theorem encodeAscii_ne_assert (s : Bytes) :
    encodeAscii s ≠ .error .assertionError := by
  unfold encodeAscii; split <;> simp

theorem structArgCheck_ne_assert (b : Bool) :
    structArgCheck b ≠ .error .assertionError := by
  unfold structArgCheck; split <;> simp

theorem dictFind_ne_assert (d : List (Nat × Nat × Nat)) (k : Nat) :
    dictFind d k ≠ .error .assertionError := by
  induction d with
  | nil => simp [dictFind]
  | cons e rest ih =>
      obtain ⟨k0, v0⟩ := e
      unfold dictFind
      split
      · simp
      · exact ih

theorem pack_s15Fixed16Number_ne_assert (n : S15) :
    pack_s15Fixed16Number n ≠ .error .assertionError := by
  unfold pack_s15Fixed16Number
  exact bind_ne_error (packS16_ne_assert _) fun _ =>
    bind_ne_error (packU16_ne_assert _) fun _ => by simp

theorem pack_XYZNumber_ne_assert (xyz : S15 × S15 × S15) :
    pack_XYZNumber xyz ≠ .error .assertionError := by
  unfold pack_XYZNumber
  exact bind_ne_error (pack_s15Fixed16Number_ne_assert _) fun _ =>
    bind_ne_error (pack_s15Fixed16Number_ne_assert _) fun _ =>
      bind_ne_error (pack_s15Fixed16Number_ne_assert _) fun _ => by simp

theorem dopack_VersionNumber_ne_assert (a b c d : Nat) :
    dopack_VersionNumber a b c d ≠ .error .assertionError := by
  unfold dopack_VersionNumber
  exact bind_ne_error (packB_ne_assert _) fun _ =>
    bind_ne_error (packB_ne_assert _) fun _ =>
      bind_ne_error (packU16_ne_assert _) fun _ => by simp

theorem pack_dateTimeNumber_ne_assert (dt : Nat × Nat × Nat × Nat × Nat × Nat) :
    pack_dateTimeNumber dt ≠ .error .assertionError := by
  unfold pack_dateTimeNumber
  exact bind_ne_error (packU16_ne_assert _) fun _ =>
    bind_ne_error (packU16_ne_assert _) fun _ =>
      bind_ne_error (packU16_ne_assert _) fun _ =>
        bind_ne_error (packU16_ne_assert _) fun _ =>
          bind_ne_error (packU16_ne_assert _) fun _ =>
            bind_ne_error (packU16_ne_assert _) fun _ => by simp

theorem headerPack_ne_assert (h : ICCHeader) :
    h.pack ≠ .error .assertionError := by
  unfold ICCHeader.pack
  exact bind_ne_error (dopack_VersionNumber_ne_assert _ _ _ _) fun _ =>
    bind_ne_error (pack_dateTimeNumber_ne_assert _) fun _ =>
      bind_ne_error (packU32_ne_assert _) fun _ =>
        bind_ne_error (packU32_ne_assert _) fun _ =>
          bind_ne_error (encodeAscii_ne_assert _) fun _ =>
            bind_ne_error (encodeAscii_ne_assert _) fun _ =>
              bind_ne_error (encodeAscii_ne_assert _) fun _ =>
                bind_ne_error (encodeAscii_ne_assert _) fun _ =>
                  bind_ne_error (encodeAscii_ne_assert _) fun _ =>
                    bind_ne_error (packU32_ne_assert _) fun _ =>
                      bind_ne_error (packU32_ne_assert _) fun _ =>
                        bind_ne_error (packU32_ne_assert _) fun _ =>
                          bind_ne_error (packU32_ne_assert _) fun _ =>
                            bind_ne_error (pack_XYZNumber_ne_assert _) fun _ =>
                              bind_ne_error (packU32_ne_assert _) fun _ => by simp

theorem encodeUtf16be_ne_assert (l : List Nat) :
    encodeUtf16be l ≠ .error .assertionError := by
  induction l with
  | nil => simp [encodeUtf16be]
  | cons c rest ih =>
      unfold encodeUtf16be
      exact bind_ne_error ih fun rb => by split <;> (try split) <;> simp

theorem packCurveValues_ne_assert (l : List Nat) :
    packCurveValues l ≠ .error .assertionError := by
  induction l with
  | nil => simp [packCurveValues]
  | cons v rest ih =>
      unfold packCurveValues
      exact bind_ne_error (packU16_ne_assert _) fun _ =>
        bind_ne_error ih fun _ => by simp

theorem packXYZNumbers_ne_assert (l : List (S15 × S15 × S15)) :
    packXYZNumbers l ≠ .error .assertionError := by
  induction l with
  | nil => simp [packXYZNumbers]
  | cons n rest ih =>
      unfold packXYZNumbers
      exact bind_ne_error (pack_XYZNumber_ne_assert _) fun _ =>
        bind_ne_error ih fun _ => by simp

theorem packS15Numbers_ne_assert (l : List S15) :
    packS15Numbers l ≠ .error .assertionError := by
  induction l with
  | nil => simp [packS15Numbers]
  | cons n rest ih =>
      unfold packS15Numbers
      exact bind_ne_error (pack_s15Fixed16Number_ne_assert _) fun _ =>
        bind_ne_error ih fun _ => by simp

theorem packMlucNames_ne_assert (l : List MlucName) :
    packMlucNames l ≠ .error .assertionError := by
  induction l with
  | nil => simp [packMlucNames]
  | cons n rest ih =>
      unfold packMlucNames
      exact bind_ne_error (encodeUtf16be_ne_assert _) fun _ =>
        bind_ne_error (packU32_ne_assert _) fun _ =>
          bind_ne_error (encodeAscii_ne_assert _) fun _ =>
            bind_ne_error (encodeAscii_ne_assert _) fun _ =>
              bind_ne_error (packU32_ne_assert _) fun _ =>
                bind_ne_error (packU32_ne_assert _) fun _ =>
                  bind_ne_error ih fun _ => by simp

theorem pack_UnimplementedType_ne_assert (d : ElemData) :
    pack_UnimplementedType d ≠ .error .assertionError := by
  cases d <;> simp [pack_UnimplementedType]

theorem pack_textType_ne_assert (d : ElemData) :
    pack_textType d ≠ .error .assertionError := by
  cases d
  case textType es sig res text =>
    unfold pack_textType
    exact bind_ne_error (encodeAscii_ne_assert _) fun _ =>
      bind_ne_error (packU32_ne_assert _) fun _ =>
        bind_ne_error (encodeAscii_ne_assert _) fun _ => by simp
  all_goals simp [pack_textType]

theorem pack_chromaticityType_ne_assert (d : ElemData) :
    pack_chromaticityType d ≠ .error .assertionError := by
  cases d
  case chromaticityType es sig res num pho coords =>
    unfold pack_chromaticityType
    exact bind_ne_error (encodeAscii_ne_assert _) fun _ =>
      bind_ne_error (packU32_ne_assert _) fun _ =>
        bind_ne_error (packU16_ne_assert _) fun _ =>
          bind_ne_error (packU16_ne_assert _) fun _ => by
            cases coords <;> simp
  all_goals simp [pack_chromaticityType]

theorem pack_curveType_ne_assert (d : ElemData) :
    pack_curveType d ≠ .error .assertionError := by
  cases d
  case curveType es sig res cnt vals =>
    unfold pack_curveType
    exact bind_ne_error (encodeAscii_ne_assert _) fun _ =>
      bind_ne_error (packU32_ne_assert _) fun _ =>
        bind_ne_error (packU32_ne_assert _) fun _ =>
          bind_ne_error (structArgCheck_ne_assert _) fun _ =>
            bind_ne_error (packCurveValues_ne_assert _) fun _ => by simp
  all_goals simp [pack_curveType]

theorem pack_textDescriptionType_ne_assert (d : ElemData) :
    pack_textDescriptionType d ≠ .error .assertionError := by
  cases d
  case textDescriptionType a b c d' e f g h i j k l =>
    unfold pack_textDescriptionType
    exact bind_ne_error (encodeAscii_ne_assert _) fun _ =>
      bind_ne_error (packU32_ne_assert _) fun _ =>
        bind_ne_error (packU32_ne_assert _) fun _ =>
          bind_ne_error (encodeAscii_ne_assert _) fun _ =>
            bind_ne_error (packU32_ne_assert _) fun _ =>
              bind_ne_error (packU32_ne_assert _) fun _ =>
                bind_ne_error (packU16_ne_assert _) fun _ =>
                  bind_ne_error (packB_ne_assert _) fun _ => by simp
  all_goals simp [pack_textDescriptionType]

theorem pack_XYZType_ne_assert (d : ElemData) :
    pack_XYZType d ≠ .error .assertionError := by
  cases d
  case XYZType es sig res nums =>
    unfold pack_XYZType
    exact bind_ne_error (encodeAscii_ne_assert _) fun _ =>
      bind_ne_error (packU32_ne_assert _) fun _ =>
        bind_ne_error (packXYZNumbers_ne_assert _) fun _ => by simp
  all_goals simp [pack_XYZType]

theorem pack_multiLocalizedUnicodeType_ne_assert (d : ElemData) :
    pack_multiLocalizedUnicodeType d ≠ .error .assertionError := by
  cases d
  case multiLocalizedUnicodeType es sig res nn names rem =>
    unfold pack_multiLocalizedUnicodeType
    exact bind_ne_error (encodeAscii_ne_assert _) fun _ =>
      bind_ne_error (packU32_ne_assert _) fun _ =>
        bind_ne_error (packU32_ne_assert _) fun _ =>
          bind_ne_error (packMlucNames_ne_assert _) fun _ => by simp
  all_goals simp [pack_multiLocalizedUnicodeType]

theorem pack_s15Fixed16ArrayType_ne_assert (d : ElemData) :
    pack_s15Fixed16ArrayType d ≠ .error .assertionError := by
  cases d
  case s15Fixed16ArrayType es sig res nums =>
    unfold pack_s15Fixed16ArrayType
    exact bind_ne_error (encodeAscii_ne_assert _) fun _ =>
      bind_ne_error (packU32_ne_assert _) fun _ =>
        bind_ne_error (packS15Numbers_ne_assert _) fun _ => by simp
  all_goals simp [pack_s15Fixed16ArrayType]

theorem pack_parametricCurveType_ne_assert (d : ElemData) :
    pack_parametricCurveType d ≠ .error .assertionError := by
  cases d
  case parametricCurveType es sig res ev r2 params =>
    unfold pack_parametricCurveType
    exact bind_ne_error (encodeAscii_ne_assert _) fun _ =>
      bind_ne_error (packU32_ne_assert _) fun _ =>
        bind_ne_error (packU16_ne_assert _) fun _ =>
          bind_ne_error (packU16_ne_assert _) fun _ =>
            bind_ne_error (packS15Numbers_ne_assert _) fun _ => by simp
  all_goals simp [pack_parametricCurveType]

theorem tagPack_ne_assert (t : ICCTag) : t.pack ≠ .error .assertionError := by
  unfold ICCTag.pack packElemDispatch
  split
  · exact pack_textType_ne_assert _
  · exact pack_textDescriptionType_ne_assert _
  · exact pack_multiLocalizedUnicodeType_ne_assert _
  · exact pack_XYZType_ne_assert _
  · exact pack_s15Fixed16ArrayType_ne_assert _
  · exact pack_curveType_ne_assert _
  · exact pack_parametricCurveType_ne_assert _
  · exact pack_chromaticityType_ne_assert _
  · exact pack_UnimplementedType_ne_assert _

theorem ElemEntry.pack_ne_assert (e : ElemEntry) :
    e.pack ≠ .error .assertionError := by
  cases e with
  | single t => exact tagPack_ne_assert t
  | multi ts => simp [ElemEntry.pack]

theorem packElements_ne_assert (l : List (Nat × ElemEntry))
    (d : List (Nat × Nat × Nat)) (acc : Bytes) :
    packElements l d acc ≠ .error .assertionError := by
  induction l generalizing d acc with
  | nil => simp [packElements]
  | cons e rest ih =>
      obtain ⟨off, entry⟩ := e
      unfold packElements
      exact bind_ne_error (ElemEntry.pack_ne_assert _) fun _ => ih _ _

theorem packTagTable_ne_assert (d : List (Nat × Nat × Nat)) (hs : Nat)
    (tts : Int) (tbl : List (Bytes × Nat)) :
    packTagTable d hs tts tbl ≠ .error .assertionError := by
  induction tbl with
  | nil => simp [packTagTable]
  | cons e rest ih =>
      obtain ⟨sig, off⟩ := e
      unfold packTagTable
      exact bind_ne_error (dictFind_ne_assert _ _) fun _ =>
        bind_ne_error (encodeAscii_ne_assert _) fun _ =>
          bind_ne_error (packU32I_ne_assert _) fun _ =>
            bind_ne_error (packU32I_ne_assert _) fun _ =>
              bind_ne_error ih fun _ => by simp

/-! ## Claim C10 -/

theorem parseTags_length {blob : Bytes} {hdr : ICCHeader} :
    ∀ {n i : Nat} {table : List (Bytes × Nat)} {elems : List (Nat × ElemEntry)}
      {t : List (Bytes × Nat)} {e : List (Nat × ElemEntry)},
      parseTags blob hdr n i table elems = .ok (t, e) →
      t.length = table.length + n := by
  intro n
  induction n with
  | zero =>
      intro i table elems t e h
      simp only [parseTags, Except.ok.injEq, Prod.mk.injEq] at h
      simp [← h.1]
  | succ n ih =>
      intro i table elems t e h
      unfold parseTags at h
      obtain ⟨sig, _, h⟩ := bind_ok h
      obtain ⟨off, _, h⟩ := bind_ok h
      obtain ⟨size, _, h⟩ := bind_ok h
      obtain ⟨tag, _, h⟩ := bind_ok h
      have hl := ih h
      simp only [List.length_append, List.length_cons, List.length_nil] at hl
      omega

theorem ICCProfile.parse_count {blob : Bytes} {fvn : Option Bytes}
    {p : ICCProfile} (h : ICCProfile.parse blob fvn = .ok p) :
    p.tag_count = (p.tag_table.length : Int) := by
  unfold ICCProfile.parse at h
  obtain ⟨hi, _, h⟩ := bind_ok h
  obtain ⟨header, i⟩ := hi
  obtain ⟨cnt, _, h⟩ := bind_ok h
  obtain ⟨te, hte, h⟩ := bind_ok h
  obtain ⟨table, elems⟩ := te
  have hlen := parseTags_length hte
  have hp := Except.ok.inj h
  rw [← hp]
  simp only [List.length_nil, Nat.zero_add] at hlen
  simp [hlen]

theorem remove_copyright_ok {p p' : ICCProfile} (h : remove_copyright p = .ok p') :
    p'.tag_count = p.tag_count -
      (((p.tag_table.filter (fun e => e.1 == cprtSig)).map Prod.snd).length : Int) ∧
    p'.tag_table = p.tag_table.filter (fun e => ! (e.1 == cprtSig)) := by
  unfold remove_copyright at h
  obtain ⟨elements, _, h⟩ := bind_ok h
  have hp := Except.ok.inj h
  rw [← hp]
  exact ⟨rfl, rfl⟩

/-- C10: (a) every successful decode stores a tag count equal to the tag
table length; (b) the copyright edit decrements the stored count by
exactly the number of `"cprt"` entries it removes, so it preserves the
count-equals-length invariant; and (c) on any profile satisfying the
invariant the pack-time count-consistency `assert` in `write_icc_profile`
never fires — writing can fail for other reasons, but never with
`AssertionError`. -/
theorem claim_C10 :
    (∀ (blob : Bytes) (fvn : Option Bytes) (p : ICCProfile),
        ICCProfile.parse blob fvn = .ok p →
        p.tag_count = (p.tag_table.length : Int)) ∧
    (∀ (p p' : ICCProfile), remove_copyright p = .ok p' →
        p'.tag_count = p.tag_count -
          (((p.tag_table.filter (fun e => e.1 == cprtSig)).length : Int)) ∧
        (p.tag_count = (p.tag_table.length : Int) →
          p'.tag_count = (p'.tag_table.length : Int))) ∧
    (∀ p : ICCProfile, p.tag_count = (p.tag_table.length : Int) →
        write_icc_profile p ≠ .error .assertionError) := by
  refine ⟨?_, ?_, ?_⟩
  · intro blob fvn p hp
    exact ICCProfile.parse_count hp
  · intro p p' hrm
    obtain ⟨hcnt, htbl⟩ := remove_copyright_ok hrm
    constructor
    · simpa using hcnt
    · intro hinv
      have hsum := List.length_eq_length_filter_add
        (l := p.tag_table) (fun e => e.1 == cprtSig)
      rw [hcnt, htbl, hinv]
      simp only [List.length_map]
      have : (p.tag_table.filter (fun e => ! (e.1 == cprtSig))).length =
          (p.tag_table.filter (! (fun e => e.1 == cprtSig) ·)).length := rfl
      rw [this]
      omega
  · intro p hcnt
    unfold write_icc_profile
    apply bind_ne_error (headerPack_ne_assert _)
    intro header_bytes
    apply bind_ne_error (packElements_ne_assert _ _ _)
    intro pr
    obtain ⟨dict, eb⟩ := pr
    have hbeq : (p.tag_count == (p.tag_table.length : Int)) = true := by
      simp [hcnt]
    rw [hbeq]
    apply bind_ne_error (show pyassert true ≠ .error .assertionError by
      simp [pyassert])
    intro u
    apply bind_ne_error (packU32I_ne_assert _)
    intro cnt
    apply bind_ne_error (packTagTable_ne_assert _ _ _ _)
    intro entries
    apply bind_ne_error (headerPack_ne_assert _)
    intro hb2
    simp

set_option maxRecDepth 200000 in
/-- Witness for C10: a decoded one-`"cprt"` profile, its successful edit,
and the writer not raising the count assertion on the edited profile. -/
theorem claim_C10_witness :
    ∃ p q, ICCProfile.parse blobOneCprt none = .ok p ∧
      p.tag_count = (p.tag_table.length : Int) ∧
      remove_copyright p = .ok q ∧
      q.tag_count = (q.tag_table.length : Int) ∧
      write_icc_profile q ≠ .error .assertionError := by
  obtain ⟨q, hq⟩ := exceptIsOk_exists
    (show exceptIsOk (ICCProfile.parse blobOneCprt none >>= remove_copyright) =
      true from rfl)
  obtain ⟨p, hp, hrm⟩ := bind_ok hq
  have h1 := claim_C10.1 blobOneCprt none p hp
  have h2 := (claim_C10.2.1 p q hrm).2 h1
  have h3 := claim_C10.2.2 q h2
  exact ⟨p, q, hp, h1, hrm, h2, h3⟩

/-! ## Claim C6 -/

theorem encodeAscii_ok {s b : Bytes} (h : encodeAscii s = .ok b) :
    b = s ∧ s.all (· < 128) = true := by
  unfold encodeAscii at h
  split at h
  · exact ⟨(Except.ok.inj h).symm, by assumption⟩
  · simp at h

theorem decodeAscii_of_all {s : Bytes} (h : s.all (· < 128) = true) :
    decodeAscii s = .ok s := by
  simp [decodeAscii, h]

theorem packU32_ok_length {v : Nat} {b : Bytes} (h : packU32 v = .ok b) :
    b.length = 4 := by
  unfold packU32 at h
  split at h
  · rw [← Except.ok.inj h]; rfl
  · simp at h

theorem packU32I_ok_length {v : Int} {b : Bytes} (h : packU32I v = .ok b) :
    b.length = 4 := by
  unfold packU32I at h
  split at h
  · exact packU32_ok_length h
  · simp at h

theorem unpackU32_of_length {bs : Bytes} (h : bs.length = 4) :
    ∃ v, unpackU32 bs = .ok v := by
  rcases bs with _ | ⟨a, _ | ⟨b, _ | ⟨c, _ | ⟨d, _ | rest⟩⟩⟩⟩ <;> simp at h
  exact ⟨_, rfl⟩

theorem readSigsLoop_packTagTable {d : List (Nat × Nat × Nat)} {hs : Nat}
    {tts : Int} :
    ∀ {tbl : List (Bytes × Nat)} {bs : Bytes},
      packTagTable d hs tts tbl = .ok bs →
      (∀ e ∈ tbl, (Prod.fst e).length = 4) →
      ∀ {blob : Bytes} {i : Nat} (post : Bytes),
        blob.drop i = bs ++ post →
        readSigsLoop blob tbl.length i = .ok (tbl.map Prod.fst) := by
  intro tbl
  induction tbl with
  | nil =>
      intro bs _ _ blob i post _
      simp [readSigsLoop]
  | cons e rest ih =>
      obtain ⟨sig, off⟩ := e
      intro bs h hlen blob i post hdrop
      unfold packTagTable at h
      obtain ⟨ov, hov, h⟩ := bind_ok h
      obtain ⟨offset_out, size⟩ := ov
      obtain ⟨sb, hsb, h⟩ := bind_ok h
      obtain ⟨ob, hob, h⟩ := bind_ok h
      obtain ⟨zb, hzb, h⟩ := bind_ok h
      obtain ⟨restBytes, hrest, h⟩ := bind_ok h
      have hbs := Except.ok.inj h
      obtain ⟨hsbeq, hsb128⟩ := encodeAscii_ok hsb
      subst hsbeq
      have hsiglen : sb.length = 4 := hlen (sb, off) (List.mem_cons_self _ _)
      have hoblen := packU32I_ok_length hob
      have hzblen := packU32I_ok_length hzb
      rw [← hbs] at hdrop
      have hdrop' : blob.drop i = sb ++ (ob ++ (zb ++ (restBytes ++ post))) := by
        rw [hdrop]; simp [List.append_assoc]
      have hps1 : pyslice blob i (i + 4) = sb := by
        unfold pyslice
        rw [hdrop', Nat.add_sub_cancel_left, List.take_left' hsiglen]
      have hdrop4 : blob.drop (i + 4) = ob ++ (zb ++ (restBytes ++ post)) := by
        rw [← List.drop_drop, hdrop', List.drop_left' hsiglen]
      have hps2 : pyslice blob (i + 4) (i + 8) = ob := by
        unfold pyslice
        rw [hdrop4, show i + 8 - (i + 4) = 4 by omega, List.take_left' hoblen]
      have hdrop8 : blob.drop (i + 8) = zb ++ (restBytes ++ post) := by
        rw [show i + 8 = i + 4 + 4 by omega, ← List.drop_drop, hdrop4,
          List.drop_left' hoblen]
      have hps3 : pyslice blob (i + 8) (i + 12) = zb := by
        unfold pyslice
        rw [hdrop8, show i + 12 - (i + 8) = 4 by omega, List.take_left' hzblen]
      have hdrop12 : blob.drop (i + 12) = restBytes ++ post := by
        rw [show i + 12 = i + 8 + 4 by omega, ← List.drop_drop, hdrop8,
          List.drop_left' hzblen]
      obtain ⟨vo, hvo⟩ := unpackU32_of_length hoblen
      obtain ⟨vz, hvz⟩ := unpackU32_of_length hzblen
      have hrec := ih hrest (fun x hx => hlen x (List.mem_cons_of_mem _ hx))
        post hdrop12
      show readSigsLoop blob (rest.length + 1) i = _
      unfold readSigsLoop
      rw [hps1, decodeAscii_of_all hsb128]
      simp only [Bind.bind, Except.bind]
      rw [hps2, hvo, hps3, hvz, hrec]
      simp [List.map_cons]

/-- C6: after a successful copyright-removal edit, the directory signature
sequence equals the original sequence with the `"cprt"` entries deleted
and no other reordering; and a subsequent successful encode preserves that
order — the output splits as packed header ++ 4 count bytes ++ directory
++ element region, and reading the directory entries back from the output
(with the same reads the parse loop uses) at the position just past the
count yields exactly the edited signature sequence. -/
theorem claim_C6 (p p' : ICCProfile) (out : Bytes)
    (hrm : remove_copyright p = .ok p')
    (hsig : ∀ e ∈ p'.tag_table, (Prod.fst e).length = 4)
    (hw : write_icc_profile p' = .ok out) :
    p'.tag_table.map Prod.fst =
      (p.tag_table.filter (fun e => ! (e.1 == cprtSig))).map Prod.fst ∧
    ∃ hb cnt entries elems, out = hb ++ (cnt ++ entries) ++ elems ∧
      cnt.length = 4 ∧
      readSigsLoop out p'.tag_table.length (hb.length + 4) =
        .ok (p'.tag_table.map Prod.fst) := by
  constructor
  · rw [(remove_copyright_ok hrm).2]
  · unfold write_icc_profile at hw
    obtain ⟨hb1, _, hw⟩ := bind_ok hw
    obtain ⟨pr, _, hw⟩ := bind_ok hw
    obtain ⟨dict, eb⟩ := pr
    obtain ⟨u, _, hw⟩ := bind_ok hw
    obtain ⟨cnt, hcnt, hw⟩ := bind_ok hw
    obtain ⟨entries, hentries, hw⟩ := bind_ok hw
    obtain ⟨hb2, _, hw⟩ := bind_ok hw
    have hout := Except.ok.inj hw
    have hcnt4 := packU32I_ok_length hcnt
    refine ⟨hb2, cnt, entries, eb, hout.symm, hcnt4, ?_⟩
    apply readSigsLoop_packTagTable hentries hsig eb
    rw [← hout]
    have hassoc : hb2 ++ (cnt ++ entries) ++ eb =
        (hb2 ++ cnt) ++ (entries ++ eb) := by
      simp [List.append_assoc]
    rw [hassoc, List.drop_left' (show (hb2 ++ cnt).length = hb2.length + 4 by
      simp [hcnt4])]

set_option maxRecDepth 400000 in
/-- Witness for C6: the edit and re-encode of a decoded profile with one
`"cprt"` and one `"desc"` entry. -/
theorem claim_C6_witness :
    ∃ p p' out, ICCProfile.parse blobTwoTags none = .ok p ∧
      remove_copyright p = .ok p' ∧
      write_icc_profile p' = .ok out ∧
      p'.tag_table.map Prod.fst =
        (p.tag_table.filter (fun e => ! (e.1 == cprtSig))).map Prod.fst ∧
      ∃ hb cnt entries elems, out = hb ++ (cnt ++ entries) ++ elems ∧
        cnt.length = 4 ∧
        readSigsLoop out p'.tag_table.length (hb.length + 4) =
          .ok (p'.tag_table.map Prod.fst) := by
  obtain ⟨out, hout⟩ := exceptIsOk_exists
    (show exceptIsOk ((ICCProfile.parse blobTwoTags none >>= remove_copyright)
      >>= write_icc_profile) = true from rfl)
  obtain ⟨p', hp', hw⟩ := bind_ok hout
  obtain ⟨p, hp, hrm⟩ := bind_ok hp'
  have hchk : (ICCProfile.parse blobTwoTags none >>= remove_copyright).map
      (fun q => q.tag_table.all (fun e => (Prod.fst e).length == 4)) =
      .ok true := by rfl
  rw [hp'] at hchk
  simp only [Except.map] at hchk
  have hall := Except.ok.inj hchk
  have hsig : ∀ e ∈ p'.tag_table, (Prod.fst e).length = 4 := by
    intro e he
    have := List.all_eq_true.mp hall e he
    simpa using this
  obtain ⟨h1, h2⟩ := claim_C6 p p' out hrm hsig hw
  exact ⟨p, p', out, hp, hrm, hw, h1, h2⟩
